import Mathlib

set_option autoImplicit false

/-!
Shallow embedding of the provider reconciliation core of this repository
(`src/cio/src/providers.rs`): the `ProviderOps` trait implementations for the
spend-management client (ramp), the org-membership client (octorust/GitHub),
the groupware client (gsuite), and the SSO-directory client (okta).

Each provider operation is embedded as a computation in an effect monad `Eff`
that threads a model of the provider's remote state and records every outbound
call in a trace.  A fault-injection environment maps the index of an outbound
call to an optional injected transport failure, which lets us express claims
about arbitrary remote errors (transport failures, permission failures) that
the deterministic remote-state model alone cannot produce.
-/
/-- Result-level error of an embedded operation: `err` models an error
propagated by the source with a `bail!` or `?` (an `anyhow` error carrying a
message string); `panicked` models a Rust panic, such as calling
`Option::unwrap` on `None`. -/
inductive Err where
  | err (msg : String)
  | panicked (msg : String)
deriving DecidableEq, Repr

/-- Whether an outcome is a panic (as opposed to a returned error or success). -/
def Err.isPanic : Err → Bool
  | Err.err _ => false
  | Err.panicked _ => true

/-- The effect monad of an embedded provider operation over remote-state type
`σ` and outbound-call type `κ`: given a fault-injection environment, an initial
remote state, and the trace of calls made so far, produce the result, the final
remote state, and the extended call trace. -/
def Eff (σ κ α : Type) : Type :=
  (Nat → Option String) → σ → List κ → Except Err α × σ × List κ

/-- The environment injecting no transport faults: every outbound call is
answered by the remote-state model. -/
def noFaults : Nat → Option String := fun _ => none

/-- The environment injecting the transport failure `e` for the outbound call
at index `i` (all other calls are answered by the remote-state model). -/
def faultAt (i : Nat) (e : String) : Nat → Option String :=
  fun n => if n = i then some e else none

def Eff.pure {σ κ α : Type} (a : α) : Eff σ κ α :=
  fun _ s tr => (Except.ok a, s, tr)

def Eff.bind {σ κ α β : Type} (x : Eff σ κ α) (f : α → Eff σ κ β) : Eff σ κ β :=
  fun env s tr =>
    match x env s tr with
    | (Except.ok a, s2, tr2) => f a env s2 tr2
    | (Except.error e, s2, tr2) => (Except.error e, s2, tr2)

instance instMonadEff {σ κ : Type} : Monad (Eff σ κ) where
  pure := Eff.pure
  bind := Eff.bind

/-- One outbound call to the remote provider.  The call `c` is appended to the
trace.  If the environment injects a fault for this call index, the call
returns that transport error; otherwise the remote-state model `exec` answers
it.  The response (success or remote error) is returned as a value, mirroring
the Rust code matching on the `Result` of an API call. -/
def Eff.call {σ κ α : Type} (c : κ) (exec : σ → Except String (α × σ)) :
    Eff σ κ (Except String α) :=
  fun env s tr =>
    match env tr.length with
    | some m => (Except.ok (Except.error m), s, tr ++ [c])
    | none =>
      match exec s with
      | Except.error m => (Except.ok (Except.error m), s, tr ++ [c])
      | Except.ok (a, s2) => (Except.ok (Except.ok a), s2, tr ++ [c])

/-- The Rust `?` operator on an API response: propagate the error, otherwise
continue with the value. -/
def Eff.orFail {σ κ α : Type} (r : Except String α) : Eff σ κ α :=
  fun _ s tr =>
    match r with
    | Except.error m => (Except.error (Err.err m), s, tr)
    | Except.ok a => (Except.ok a, s, tr)

/-- The Rust `bail!` macro: return an error built from a message. -/
def Eff.throw {σ κ α : Type} (m : String) : Eff σ κ α :=
  fun _ s tr => (Except.error (Err.err m), s, tr)

/-- A Rust panic (`Option::unwrap` on `None`). -/
def Eff.panic {σ κ α : Type} (m : String) : Eff σ κ α :=
  fun _ s tr => (Except.error (Err.panicked m), s, tr)

/-- An outbound call whose response is immediately propagated with `?`. -/
def Eff.callQ {σ κ α : Type} (c : κ) (exec : σ → Except String (α × σ)) : Eff σ κ α :=
  Eff.bind (Eff.call c exec) Eff.orFail

/-- Whether `p` is a prefix of `l` (structurally recursive so that it
evaluates inside the kernel). -/
def charsStartWith : List Char → List Char → Bool
  | [], _ => true
  | _ :: _, [] => false
  | p :: ps, c :: cs => p == c && charsStartWith ps cs

/-- Whether `pat` occurs as a contiguous subsequence of `l`. -/
def charsContains (pat : List Char) : List Char → Bool
  | [] => pat == []
  | c :: cs => charsStartWith pat (c :: cs) || charsContains pat cs

/-- `s.contains(pat)` on Rust strings: `pat` occurs as a substring of `s`. -/
def strContainsSub (s pat : String) : Bool :=
  charsContains pat.toList s.toList

/-- The error classification used throughout `providers.rs`:
`e.to_string().contains("404")` decides whether a remote error is NotFound. -/
def contains404 (e : String) : Bool :=
  strContainsSub e "404"

/-- Rust `String::is_empty`. -/
def strIsEmpty (s : String) : Bool :=
  s == ""

/-- Rust `str::replace` with a character pattern (`s.replace('@', "%40")`):
replace every occurrence of the character by the replacement string. -/
def replaceChar (s : String) (c : Char) (rep : String) : String :=
  String.mk (s.toList.foldr (fun ch acc => if ch == c then rep.toList ++ acc else ch :: acc) [])

/-- Rust `str::trim`: drop leading and trailing whitespace. -/
def rustTrim (s : String) : String :=
  String.mk ((((s.toList.dropWhile Char.isWhitespace).reverse.dropWhile Char.isWhitespace).reverse))

/-! ## Canonical data model

The canonical `User` and `Group` records (from `configs.rs`, external to the
reconciliation core) restricted to the fields `providers.rs` reads. -/
/-- Canonical user record (the fields consumed by `providers.rs`). -/
structure User where
  email : String
  first_name : String
  last_name : String
  recovery_email : String
  recovery_phone : String
  department : String
  github : String
  groups : List String
  is_group_admin : Bool
  aliases : List String
  home_address_street_1 : String
  home_address_street_2 : String
  home_address_city : String
  home_address_state : String
  home_address_zipcode : String
  home_address_country_code : String
  home_address_formatted : String
deriving DecidableEq, Repr

/-- Canonical group record (the fields consumed by `providers.rs`); namespaced
as in the source (`configs::Group`) since Mathlib already declares `Group`. -/
structure Configs.Group where
  name : String
  description : String
  aliases : List String
  repos : List String
deriving DecidableEq, Repr

/-- The per-call account-scoping context (`companies.rs`, external),
restricted to the fields `providers.rs` reads. -/
structure Company where
  name : String
  github_org : String
  gsuite_domain : String
  gsuite_account_id : String
deriving DecidableEq, Repr

/-- Modelled from the spec: the manager record returned by `User::manager(db)`
(`configs.rs`, not under `src/`); the spec says the manager reference is
resolved via the Directory.  Only the two fields `providers.rs` reads. -/
structure ManagerRef where
  ramp_id : String
  email : String
deriving DecidableEq, Repr

/-- Modelled from the spec: the Canonical Directory handle (`db::Database`,
not under `src/`), used only to resolve a user's manager by the user's email. -/
structure Database where
  managerOf : String → ManagerRef

/-- Modelled from the spec: `User::full_name()` (`configs.rs`, not under
`src/`), the display name composed of first and last name. -/
def User.full_name (u : User) : String :=
  u.first_name ++ " " ++ u.last_name

/-- `User::manager(db)` resolved via the Directory. -/
def User.manager (u : User) (db : Database) : ManagerRef :=
  db.managerOf u.email

/-! ## Org-membership provider (octorust / GitHub)

Remote-state model: the GitHub organization's member roster and teams. -/
/-- GitHub org-membership role (`OrgsSetMembershipUserRequestRole`). -/
inductive OrgRole where
  | admin
  | member
deriving DecidableEq, Repr

/-- GitHub team-membership role (`TeamMembershipRole`). -/
inductive TeamRole where
  | maintainer
  | member
deriving DecidableEq, Repr

/-- A remote GitHub team (`octorust::types::Team`, restricted to the fields the
code reads): slug (used both by `get_by_name` and by the membership
endpoints), description, parent team id (`0` encodes no parent, mirroring the
code's `if let Some(parent) = team.parent { parent.id } else { 0 }`), the team
member roster, and the repositories attached to the team. -/
structure GHTeam where
  slug : String
  description : String
  parent_team_id : Nat
  members : List (String × TeamRole)
  repo_names : List String
deriving DecidableEq, Repr

/-- Remote state of the GitHub organization. -/
structure GHState where
  org_members : List (String × OrgRole)
  teams : List GHTeam
deriving DecidableEq, Repr

/-- The outbound GitHub API calls issued by `providers.rs` (payload restricted
to the data-dependent request fields). -/
inductive GHCall where
  | getOrgMembership (org login : String)
  | setOrgMembership (org login : String) (role : OrgRole)
  | getTeamMembership (org team login : String)
  | addTeamMembership (org team login : String) (role : TeamRole)
  | removeTeamMembership (org team login : String)
  | listTeams (org : String)
  | getTeamByName (org slug : String)
  | updateTeam (org slug name description : String) (parent_team_id : Nat)
  | createTeam (org name description : String) (parent_team_id : Nat) (repo_names : List String)
  | removeOrgMember (org login : String)
  | deleteTeam (org slug : String)
deriving DecidableEq, Repr

/-- Insert or overwrite a key's binding in an association list. -/
def upsertAssoc {α : Type} (l : List (String × α)) (k : String) (v : α) :
    List (String × α) :=
  match l with
  | [] => [(k, v)]
  | (k2, v2) :: rest =>
    if k2 == k then (k, v) :: rest else (k2, v2) :: upsertAssoc rest k v

/-- Remove a key's bindings from an association list. -/
def removeAssoc {α : Type} (l : List (String × α)) (k : String) :
    List (String × α) :=
  l.filter (fun p => p.1 != k)

def GHState.findTeam (s : GHState) (slug : String) : Option GHTeam :=
  s.teams.find? (fun t => t.slug == slug)

/-- Rewrite the team named `slug` with `f` (other teams unchanged). -/
def GHState.mapTeam (s : GHState) (slug : String) (f : GHTeam → GHTeam) : GHState :=
  { s with teams := s.teams.map (fun t => if t.slug == slug then f t else t) }

/-- `orgs().get_membership_for_user`: 404 when the login is not an org member. -/
def ghExecGetOrgMembership (login : String) (s : GHState) :
    Except String (OrgRole × GHState) :=
  match s.org_members.lookup login with
  | some r => Except.ok (r, s)
  | none => Except.error "404 Not Found"

/-- `orgs().set_membership_for_user`: create the membership or update its role. -/
def ghExecSetOrgMembership (login : String) (role : OrgRole) (s : GHState) :
    Except String (Unit × GHState) :=
  Except.ok ((), { s with org_members := upsertAssoc s.org_members login role })

/-- `teams().get_membership_for_user_in_org`: 404 when the team does not exist
or the login is not a member of it. -/
def ghExecGetTeamMembership (team login : String) (s : GHState) :
    Except String (TeamRole × GHState) :=
  match s.findTeam team with
  | none => Except.error "404 Not Found"
  | some t =>
    match t.members.lookup login with
    | some r => Except.ok (r, s)
    | none => Except.error "404 Not Found"

/-- `teams().add_or_update_membership_for_user_in_org`: 404 when the team does
not exist, otherwise insert the member or update their role. -/
def ghExecAddTeamMembership (team login : String) (role : TeamRole) (s : GHState) :
    Except String (Unit × GHState) :=
  match s.findTeam team with
  | none => Except.error "404 Not Found"
  | some _ =>
    Except.ok ((), s.mapTeam team (fun t => { t with members := upsertAssoc t.members login role }))

/-- `teams().remove_membership_for_user_in_org`: 404 when the team does not
exist, otherwise drop the member (removing a non-member succeeds). -/
def ghExecRemoveTeamMembership (team login : String) (s : GHState) :
    Except String (Unit × GHState) :=
  match s.findTeam team with
  | none => Except.error "404 Not Found"
  | some _ =>
    Except.ok ((), s.mapTeam team (fun t => { t with members := removeAssoc t.members login }))

/-- `teams().list_all`: the full team roster. -/
def ghExecListTeams (s : GHState) : Except String (List GHTeam × GHState) :=
  Except.ok (s.teams, s)

/-- `teams().get_by_name`: 404 when no team has that slug. -/
def ghExecGetTeamByName (slug : String) (s : GHState) :
    Except String (GHTeam × GHState) :=
  match s.findTeam slug with
  | none => Except.error "404 Not Found"
  | some t => Except.ok (t, s)

/-- `teams().update_in_org`: 404 when the team does not exist, otherwise set
the description and parent from the request. -/
def ghExecUpdateTeam (slug description : String) (parent_team_id : Nat) (s : GHState) :
    Except String (Unit × GHState) :=
  match s.findTeam slug with
  | none => Except.error "404 Not Found"
  | some _ =>
    Except.ok ((), s.mapTeam slug
      (fun t => { t with description := description, parent_team_id := parent_team_id }))

/-- `teams().create`: 422 when a team with that slug exists, otherwise append
the new team, with the request's repositories attached. -/
def ghExecCreateTeam (name description : String) (parent_team_id : Nat)
    (repo_names : List String) (s : GHState) : Except String (Unit × GHState) :=
  match s.findTeam name with
  | some _ => Except.error "422 Validation Failed"
  | none =>
    Except.ok ((), { s with teams := s.teams ++
      [{ slug := name, description := description, parent_team_id := parent_team_id,
         members := [], repo_names := repo_names }] })

/-- `orgs().remove_member`: 404 when not a member, otherwise remove the login
from the org roster and from every team (removal cascades out of all teams). -/
def ghExecRemoveOrgMember (login : String) (s : GHState) :
    Except String (Unit × GHState) :=
  match s.org_members.lookup login with
  | none => Except.error "404 Not Found"
  | some _ =>
    Except.ok ((), { org_members := removeAssoc s.org_members login,
                     teams := s.teams.map (fun t => { t with members := removeAssoc t.members login }) })

/-- `teams().delete_in_org`: 404 when the team does not exist. -/
def ghExecDeleteTeam (slug : String) (s : GHState) : Except String (Unit × GHState) :=
  match s.findTeam slug with
  | none => Except.error "404 Not Found"
  | some _ => Except.ok ((), { s with teams := s.teams.filter (fun t => t.slug != slug) })

namespace Octorust

/-- `check_user_is_member_of_group` for the octorust client: true iff the user
currently holds the desired team role; a non-404 lookup error is fatal with
identifying context; 404 or a role mismatch yields false. -/
def check_user_is_member_of_group (company : Company) (user : User) (group : String) :
    Eff GHState GHCall Bool := do
  if strIsEmpty user.github then
    return false
  let role := if user.is_group_admin then TeamRole.maintainer else TeamRole.member
  let resp ← Eff.call (GHCall.getTeamMembership company.github_org group user.github)
    (ghExecGetTeamMembership group user.github)
  match resp with
  | Except.ok membership =>
    if membership == role then
      return true
    else
      return false
  | Except.error e =>
    if !contains404 e then
      Eff.throw ("checking if user `" ++ user.github ++ "` is a member of the github team `"
        ++ group ++ "` failed: " ++ e)
    else
      return false

/-- `add_user_to_group` for the octorust client: add the user to the team (or
update their role) with Maintainer for a group admin, Member otherwise. -/
def add_user_to_group (company : Company) (user : User) (group : String) :
    Eff GHState GHCall Unit := do
  if strIsEmpty user.github then
    return ()
  let role := if user.is_group_admin then TeamRole.maintainer else TeamRole.member
  Eff.callQ (GHCall.addTeamMembership company.github_org group user.github role)
    (ghExecAddTeamMembership group user.github role)

/-- `remove_user_from_group` for the octorust client. -/
def remove_user_from_group (company : Company) (user : User) (group : String) :
    Eff GHState GHCall Unit := do
  if strIsEmpty user.github then
    return ()
  Eff.callQ (GHCall.removeTeamMembership company.github_org group user.github)
    (ghExecRemoveTeamMembership group user.github)

/-- `list_provider_groups` for the octorust client: all teams of the org. -/
def list_provider_groups (company : Company) : Eff GHState GHCall (List GHTeam) :=
  Eff.callQ (GHCall.listTeams company.github_org) ghExecListTeams

/-- The first loop of `ensure_user`: for each canonical group, check membership
and add the user when the check returns false. -/
def ensureUserAddLoop (company : Company) (user : User) :
    List String → Eff GHState GHCall Unit
  | [] => Eff.pure ()
  | g :: rest => do
    let is_member ← check_user_is_member_of_group company user g
    if !is_member then
      add_user_to_group company user g
    ensureUserAddLoop company user rest

/-- The second loop of `ensure_user`: for each remote team whose slug is not in
the canonical set, check membership and remove the user when it returns true. -/
def ensureUserRemoveLoop (company : Company) (user : User) :
    List GHTeam → Eff GHState GHCall Unit
  | [] => Eff.pure ()
  | team :: rest => do
    if user.groups.contains team.slug then
      ensureUserRemoveLoop company user rest
    else
      let is_member ← check_user_is_member_of_group company user team.slug
      if is_member then
        remove_user_from_group company user team.slug
      ensureUserRemoveLoop company user rest

/-- `ensure_user` for the octorust client: skip users with no github handle;
ensure org membership with the role derived from the admin flag (a non-404
lookup error is fatal with identifying context); then reconcile team
memberships (add loop, one team listing, remove loop); returns the empty
string. -/
def ensure_user (company : Company) (user : User) : Eff GHState GHCall String := do
  if strIsEmpty user.github then
    return ""
  let role := if user.is_group_admin then OrgRole.admin else OrgRole.member
  let resp ← Eff.call (GHCall.getOrgMembership company.github_org user.github)
    (ghExecGetOrgMembership user.github)
  let user_exists ← match resp with
    | Except.ok membership =>
      if membership == role then
        Eff.pure true
      else
        Eff.pure false
    | Except.error e =>
      if !contains404 e then
        Eff.throw ("checking if user `" ++ user.github ++ "` is a member of the github org `"
          ++ company.github_org ++ "` failed: " ++ e)
      else
        Eff.pure false
  if !user_exists then
    Eff.callQ (GHCall.setOrgMembership company.github_org user.github role)
      (ghExecSetOrgMembership user.github role)
  ensureUserAddLoop company user user.groups
  let gh_teams ← list_provider_groups company
  ensureUserRemoveLoop company user gh_teams
  return ""

/-- `ensure_group` for the octorust client: look the team up by name; on
success update it (keeping its parent); on 404 create it with the canonical
name, description and repositories; any other lookup error is fatal with
identifying context. -/
def ensure_group (company : Company) (group : Configs.Group) : Eff GHState GHCall Unit := do
  let resp ← Eff.call (GHCall.getTeamByName company.github_org group.name)
    (ghExecGetTeamByName group.name)
  match resp with
  | Except.ok team => do
    let parent_team_id := team.parent_team_id
    Eff.callQ
      (GHCall.updateTeam company.github_org group.name group.name group.description parent_team_id)
      (ghExecUpdateTeam group.name group.description parent_team_id)
    return ()
  | Except.error e => do
    if !contains404 e then
      Eff.throw ("checking if team `" ++ group.name ++ "` exists in github org `"
        ++ company.github_org ++ "` failed: " ++ e)
    Eff.callQ (GHCall.createTeam company.github_org group.name group.description 0 group.repos)
      (ghExecCreateTeam group.name group.description 0 group.repos)
    return ()

/-- `delete_user` for the octorust client: skip users with no github handle;
otherwise remove the login from the org (cascading out of all teams). -/
def delete_user (company : Company) (user : User) : Eff GHState GHCall Unit := do
  if strIsEmpty user.github then
    return ()
  Eff.callQ (GHCall.removeOrgMember company.github_org user.github)
    (ghExecRemoveOrgMember user.github)

/-- `delete_group` for the octorust client. -/
def delete_group (company : Company) (group : Configs.Group) : Eff GHState GHCall Unit := do
  Eff.callQ (GHCall.deleteTeam company.github_org group.name)
    (ghExecDeleteTeam group.name)

end Octorust

/-- The team slugs a login belongs to in a GitHub remote state. -/
def GHState.teamsOf (s : GHState) (login : String) : List String :=
  (s.teams.filter (fun t => (t.members.lookup login).isSome)).map (fun t => t.slug)

/-! ## Groupware provider (gsuite)

Remote-state model: the GSuite domain's users and groups.  The helper
functions the source calls in `crate::gsuite` and the new-account email sender
in `configs.rs` are not under `src/`; they are modelled from the spec below. -/
/-- A remote GSuite user (`gsuite_api::types::User`, restricted to the fields
this model tracks: identifier, primary address, the canonical identity fields
the upsert writes, the generated password, suspension data, and aliases). -/
structure GSUser where
  id : String
  primary_email : String
  first_name : String
  last_name : String
  recovery_email : String
  recovery_phone : String
  password : String
  suspended : Bool
  suspension_reason : String
  aliases : List String
deriving DecidableEq, Repr

/-- The `Default::default()` GSuite user record. -/
def gsDefaultUser : GSUser :=
  { id := ""
    primary_email := ""
    first_name := ""
    last_name := ""
    recovery_email := ""
    recovery_phone := ""
    password := ""
    suspended := false
    suspension_reason := ""
    aliases := [] }

/-- A remote GSuite group (`gsuite_api::types::Group` plus its member roster):
primary address `name@domain`, name, description, alias addresses, and the
members as an association from member email to role string. -/
structure GSGroup where
  email : String
  name : String
  description : String
  aliases : List String
  members : List (String × String)
deriving DecidableEq, Repr

/-- Remote state of the GSuite domain (group settings are not tracked; the
settings-update helper is modelled as an outbound call only). -/
structure GSState where
  users : List GSUser
  groups : List GSGroup
deriving DecidableEq, Repr

/-- The outbound GSuite calls issued by `ensure_user` / `ensure_group` and the
membership operations (payload restricted to the data-dependent fields). -/
inductive GSCall where
  | getUser (email : String)
  | updateUser (key : String) (u : GSUser)
  | insertUser (u : GSUser)
  | sendNewUserEmail (email password : String)
  | syncUserAliases (email : String) (aliases : List String)
  | getGroup (addr : String)
  | updateGroup (addr : String) (g : GSGroup)
  | insertGroup (g : GSGroup)
  | syncGroupAliases (addr : String)
  | updateGroupSettings (name : String)
  | getMember (addr email : String)
  | updateMember (addr email role : String)
  | insertMember (addr email role : String)
  | deleteMember (addr email : String)
  | listGroups (account domain : String)
deriving DecidableEq, Repr

def GSState.findUser (s : GSState) (email : String) : Option GSUser :=
  s.users.find? (fun u => u.primary_email == email)

def GSState.findGroup (s : GSState) (addr : String) : Option GSGroup :=
  s.groups.find? (fun g => g.email == addr)

/-- `users().get` keyed by the user's email: 404 when absent. -/
def gsExecGetUser (email : String) (s : GSState) : Except String (GSUser × GSState) :=
  match s.findUser email with
  | some u => Except.ok (u, s)
  | none => Except.error "404 Not Found"

/-- `users().update` keyed by id or email (the API accepts either): replace
the record; 404 when absent. -/
def gsExecUpdateUser (key : String) (u : GSUser) (s : GSState) :
    Except String (Unit × GSState) :=
  match s.users.find? (fun x => x.id == key || x.primary_email == key) with
  | none => Except.error "404 Not Found"
  | some _ =>
    let users2 := s.users.map (fun x => if x.id == key || x.primary_email == key then u else x)
    Except.ok ((), { s with users := users2 })

/-- `users().insert`: 409 when the primary address already exists, otherwise
append the record with a server-assigned id and return the created record. -/
def gsExecInsertUser (u : GSUser) (s : GSState) : Except String (GSUser × GSState) :=
  match s.findUser u.primary_email with
  | some _ => Except.error "409 duplicate"
  | none =>
    let assigned := { u with id := "gsuite-id-" ++ u.primary_email }
    Except.ok (assigned, { s with users := s.users ++ [assigned] })

/-- The out-of-band new-account email: an outbound call with no remote-state
effect. -/
def gsExecSendEmail (s : GSState) : Except String (Unit × GSState) :=
  Except.ok ((), s)

/-- The alias-synchronization call on a user: an outbound call whose target
(the alias lists) lives outside the tracked remote state; the synchronized
aliases are observable in the call payload. -/
def gsExecSyncUserAliases (s : GSState) : Except String (Unit × GSState) :=
  Except.ok ((), s)

/-- `groups().get` keyed by the group address: 404 when absent. -/
def gsExecGetGroup (addr : String) (s : GSState) : Except String (GSGroup × GSState) :=
  match s.findGroup addr with
  | some g => Except.ok (g, s)
  | none => Except.error "404 Not Found"

/-- `groups().update` keyed by the group address: replace the record
(membership preserved); 404 when absent. -/
def gsExecUpdateGroup (addr : String) (g : GSGroup) (s : GSState) :
    Except String (Unit × GSState) :=
  match s.findGroup addr with
  | none => Except.error "404 Not Found"
  | some old =>
    let groups2 := s.groups.map (fun x => if x.email == addr then { g with members := old.members } else x)
    Except.ok ((), { s with groups := groups2 })

/-- `groups().insert`: 409 when the address already exists, otherwise append
and return the created record. -/
def gsExecInsertGroup (g : GSGroup) (s : GSState) : Except String (GSGroup × GSState) :=
  match s.findGroup g.email with
  | some _ => Except.error "409 duplicate"
  | none => Except.ok (g, { s with groups := s.groups ++ [g] })

/-- The alias-synchronization call on a group: an outbound call whose target
(the alias list) lives outside the tracked remote state. -/
def gsExecSyncGroupAliases (s : GSState) : Except String (Unit × GSState) :=
  Except.ok ((), s)

/-- The groups-settings update call: an outbound call whose target state is
not tracked by this model. -/
def gsExecUpdateGroupSettings (s : GSState) : Except String (Unit × GSState) :=
  Except.ok ((), s)

/-- `members().get`: the member's role; 404 when the group or the member is
absent. -/
def gsExecGetMember (addr email : String) (s : GSState) :
    Except String (String × GSState) :=
  match s.findGroup addr with
  | none => Except.error "404 Not Found"
  | some g =>
    match g.members.lookup email with
    | some role => Except.ok (role, s)
    | none => Except.error "404 Not Found"

/-- Rewrite the group at `addr` with `f` (other groups unchanged). -/
def GSState.mapGroup (s : GSState) (addr : String) (f : GSGroup → GSGroup) : GSState :=
  { s with groups := s.groups.map (fun g => if g.email == addr then f g else g) }

/-- `members().update`: set the member's role; 404 when the group or member is
absent. -/
def gsExecUpdateMember (addr email role : String) (s : GSState) :
    Except String (Unit × GSState) :=
  match s.findGroup addr with
  | none => Except.error "404 Not Found"
  | some g =>
    match g.members.lookup email with
    | none => Except.error "404 Not Found"
    | some _ =>
      Except.ok ((), s.mapGroup addr (fun x => { x with members := upsertAssoc x.members email role }))

/-- `members().insert`: insert the member (or overwrite their role); 404 when
the group is absent. -/
def gsExecInsertMember (addr email role : String) (s : GSState) :
    Except String (Unit × GSState) :=
  match s.findGroup addr with
  | none => Except.error "404 Not Found"
  | some _ =>
    Except.ok ((), s.mapGroup addr (fun x => { x with members := upsertAssoc x.members email role }))

/-- `members().delete`: remove the member; 404 when the group or member is
absent. -/
def gsExecDeleteMember (addr email : String) (s : GSState) :
    Except String (Unit × GSState) :=
  match s.findGroup addr with
  | none => Except.error "404 Not Found"
  | some g =>
    match g.members.lookup email with
    | none => Except.error "404 Not Found"
    | some _ =>
      Except.ok ((), s.mapGroup addr (fun x => { x with members := removeAssoc x.members email }))

/-- `groups().list_all`: the full group roster of the domain. -/
def gsExecListGroups (s : GSState) : Except String (List GSGroup × GSState) :=
  Except.ok (s.groups, s)

/-- Modelled from the spec: `User::send_email_new_gsuite_user` (`configs.rs`,
not under `src/`) — the out-of-band new-account notification email, sent as a
single outbound call that can fail; its failure propagates. -/
def User.send_email_new_gsuite_user (user : User) (password : String) :
    Eff GSState GSCall Unit :=
  Eff.callQ (GSCall.sendNewUserEmail user.email password) gsExecSendEmail

namespace Gsuite

/-- Modelled from the spec: `crate::gsuite::update_gsuite_user` (not under
`src/`) — build the remote user record from the canonical user ("creates or
updates the remote user record to match canonical fields"); a password is
generated only when `create_password` is set, otherwise the existing remote
password is kept; the remote identifier, suspension data and aliases of the
base record are preserved. -/
def update_gsuite_user (u : GSUser) (user : User) (create_password : Bool)
    (_company : Company) : GSUser :=
  { id := u.id
    primary_email := user.email
    first_name := user.first_name
    last_name := user.last_name
    recovery_email := user.recovery_email
    recovery_phone := user.recovery_phone
    password := if create_password then "generated-password" else u.password
    suspended := u.suspended
    suspension_reason := u.suspension_reason
    aliases := u.aliases }

/-- Modelled from the spec: `crate::gsuite::update_user_aliases` (not under
`src/`) — synchronize the user's alias list as a secondary step after the
primary upsert, addressed by the user's primary address. -/
def update_user_aliases (gsuite_user : GSUser) (aliases : List String) :
    Eff GSState GSCall Unit :=
  Eff.callQ (GSCall.syncUserAliases gsuite_user.primary_email aliases)
    gsExecSyncUserAliases

/-- Modelled from the spec: `crate::gsuite::update_group_aliases` (not under
`src/`) — synchronize the group's alias list, addressed by the group address. -/
def update_group_aliases (google_group : GSGroup) : Eff GSState GSCall Unit :=
  Eff.callQ (GSCall.syncGroupAliases google_group.email) gsExecSyncGroupAliases

/-- Modelled from the spec: `crate::gsuite::update_google_group_settings` (not
under `src/`) — update the group's settings, an outbound call addressed by the
canonical group name. -/
def update_google_group_settings (group : Configs.Group) : Eff GSState GSCall Unit :=
  Eff.callQ (GSCall.updateGroupSettings group.name) gsExecUpdateGroupSettings

/-- `check_user_is_member_of_group` for the gsuite client: true iff the member
record of `user.email` in `group@domain` exists with the desired role (OWNER
for a group admin, MEMBER otherwise); a non-404 lookup error is fatal with
identifying context. -/
def check_user_is_member_of_group (company : Company) (user : User) (group : String) :
    Eff GSState GSCall Bool := do
  let role := if user.is_group_admin then "OWNER" else "MEMBER"
  let resp ← Eff.call (GSCall.getMember (group ++ "@" ++ company.gsuite_domain) user.email)
    (gsExecGetMember (group ++ "@" ++ company.gsuite_domain) user.email)
  match resp with
  | Except.ok member_role =>
    if member_role == role then
      return true
    else
      return false
  | Except.error e =>
    if !contains404 e then
      Eff.throw ("checking if user `" ++ user.email ++ "` is a member of the GSuite group `"
        ++ group ++ "` failed: " ++ e)
    else
      return false

/-- `add_user_to_group` for the gsuite client: check membership first; update
the member record when the check succeeds, insert it otherwise, carrying OWNER
for a group admin and MEMBER otherwise. -/
def add_user_to_group (company : Company) (user : User) (group : String) :
    Eff GSState GSCall Unit := do
  let role := if user.is_group_admin then "OWNER" else "MEMBER"
  let is_member ← check_user_is_member_of_group company user group
  if is_member then
    Eff.callQ (GSCall.updateMember (group ++ "@" ++ company.gsuite_domain) user.email role)
      (gsExecUpdateMember (group ++ "@" ++ company.gsuite_domain) user.email role)
  else
    Eff.callQ (GSCall.insertMember (group ++ "@" ++ company.gsuite_domain) user.email role)
      (gsExecInsertMember (group ++ "@" ++ company.gsuite_domain) user.email role)

/-- `remove_user_from_group` for the gsuite client. -/
def remove_user_from_group (company : Company) (user : User) (group : String) :
    Eff GSState GSCall Unit :=
  Eff.callQ (GSCall.deleteMember (group ++ "@" ++ company.gsuite_domain) user.email)
    (gsExecDeleteMember (group ++ "@" ++ company.gsuite_domain) user.email)

/-- `list_provider_groups` for the gsuite client. -/
def list_provider_groups (company : Company) : Eff GSState GSCall (List GSGroup) :=
  Eff.callQ (GSCall.listGroups company.gsuite_account_id company.gsuite_domain) gsExecListGroups

/-- The add half of the membership reconciliation: for each canonical group,
check membership and add the user when the check returns false. -/
def updateUserGroupsAddLoop (company : Company) (user : User) :
    List String → Eff GSState GSCall Unit
  | [] => Eff.pure ()
  | g :: rest => do
    let is_member ← check_user_is_member_of_group company user g
    if !is_member then
      add_user_to_group company user g
    updateUserGroupsAddLoop company user rest

/-- The remove half of the membership reconciliation: for each remote group
whose name is not in the canonical set, check membership and remove the user
when it returns true. -/
def updateUserGroupsRemoveLoop (company : Company) (user : User) :
    List GSGroup → Eff GSState GSCall Unit
  | [] => Eff.pure ()
  | g :: rest => do
    if user.groups.contains g.name then
      updateUserGroupsRemoveLoop company user rest
    else
      let is_member ← check_user_is_member_of_group company user g.name
      if is_member then
        remove_user_from_group company user g.name
      updateUserGroupsRemoveLoop company user rest

/-- Modelled from the spec: `crate::gsuite::update_user_google_groups` (not
under `src/`) — the group-membership reconciliation algorithm of spec section
4.2, built from the gsuite membership operations: add pass over the canonical
set, one full group listing, remove pass over the remote roster. -/
def update_user_google_groups (company : Company) (user : User) :
    Eff GSState GSCall Unit := do
  updateUserGroupsAddLoop company user user.groups
  let groups ← list_provider_groups company
  updateUserGroupsRemoveLoop company user groups

/-- `ensure_user` for the gsuite client: look the user up by email; on success
update the record from canonical data, then synchronize aliases and group
memberships; on 404 create the record (generating a password), send the
new-account email, then synchronize aliases and group memberships; any other
lookup error is fatal with identifying context. -/
def ensure_user (_db : Database) (company : Company) (user : User) :
    Eff GSState GSCall String := do
  let resp ← Eff.call (GSCall.getUser user.email) (gsExecGetUser user.email)
  match resp with
  | Except.ok u => do
    let gsuite_user := update_gsuite_user u user false company
    Eff.callQ (GSCall.updateUser gsuite_user.id gsuite_user)
      (gsExecUpdateUser gsuite_user.id gsuite_user)
    update_user_aliases gsuite_user user.aliases
    update_user_google_groups company user
    Eff.pure gsuite_user.id
  | Except.error e => do
    if !contains404 e then
      Eff.throw ("checking if user `" ++ user.email ++ "` exists in GSuite failed: " ++ e)
    let gsuite_user := update_gsuite_user gsDefaultUser user true company
    let new_gsuite_user ← Eff.callQ (GSCall.insertUser gsuite_user) (gsExecInsertUser gsuite_user)
    user.send_email_new_gsuite_user gsuite_user.password
    update_user_aliases gsuite_user user.aliases
    update_user_google_groups company user
    Eff.pure new_gsuite_user.id

/-- `ensure_group` for the gsuite client: look the group up by its address
`name@domain`; on success update description and aliases, then synchronize
aliases and settings; on 404 create the group, then synchronize aliases and
settings; any other lookup error is fatal with identifying context. -/
def ensure_group (_db : Database) (company : Company) (group : Configs.Group) :
    Eff GSState GSCall Unit := do
  let resp ← Eff.call (GSCall.getGroup (group.name ++ "@" ++ company.gsuite_domain))
    (gsExecGetGroup (group.name ++ "@" ++ company.gsuite_domain))
  match resp with
  | Except.ok google_group => do
    let g2 := { google_group with
      description := group.description
      aliases := group.aliases.map (fun a => a ++ "@" ++ company.gsuite_domain) }
    Eff.callQ (GSCall.updateGroup (group.name ++ "@" ++ company.gsuite_domain) g2)
      (gsExecUpdateGroup (group.name ++ "@" ++ company.gsuite_domain) g2)
    update_group_aliases g2
    update_google_group_settings group
    Eff.pure ()
  | Except.error e => do
    if !contains404 e then
      Eff.throw ("checking if group `" ++ group.name ++ "` exists in GSuite failed: " ++ e)
    let g : GSGroup :=
      { email := group.name ++ "@" ++ company.gsuite_domain
        name := group.name
        description := group.description
        aliases := group.aliases.map (fun a => a ++ "@" ++ company.gsuite_domain)
        members := [] }
    let new_group ← Eff.callQ (GSCall.insertGroup g) (gsExecInsertGroup g)
    update_group_aliases new_group
    update_google_group_settings group
    Eff.pure ()

end Gsuite

/-! ## SSO-directory provider (okta)

Remote-state model: the Okta directory's users and groups.  The state's group
list models the roster the listing endpoint returns; `ensure_group` and
`delete_group` filter it by exact profile name themselves. -/
/-- The Okta user profile (`okta::types::UserProfile`), with every field the
source populates; `Default::default()` fields are the empty string. -/
structure OktaUserProfile where
  city : String
  cost_center : String
  country_code : String
  department : String
  display_name : String
  division : String
  email : String
  employee_number : String
  first_name : String
  honorific_prefix : String
  honorific_suffix : String
  last_name : String
  locale : String
  login : String
  manager : String
  manager_id : String
  middle_name : String
  mobile_phone : String
  nick_name : String
  organization : String
  postal_address : String
  preferred_language : String
  primary_phone : String
  profile_url : String
  second_email : String
  state : String
  street_address : String
  timezone : String
  title : String
  user_type : String
  zip_code : String
deriving DecidableEq, Repr

/-- A remote Okta user (`okta::types::User`, restricted to the fields the code
reads): identifier and optional profile. -/
structure OktaUser where
  id : String
  profile : Option OktaUserProfile
deriving DecidableEq, Repr

/-- An Okta group profile (`okta::types::GroupProfile`). -/
structure OktaGroupProfile where
  name : String
  description : String
deriving DecidableEq, Repr

/-- A remote Okta group (`okta::types::Group`, restricted to the fields the
code reads): identifier and optional profile.  A listing may contain a group
without a profile, which is exactly what the `unwrap` in the source assumes
away. -/
structure OktaGroup where
  id : String
  profile : Option OktaGroupProfile
deriving DecidableEq, Repr

/-- Remote state of the Okta directory. -/
structure OktaState where
  users : List OktaUser
  groups : List OktaGroup
deriving DecidableEq, Repr

/-- The outbound Okta calls issued by `providers.rs` (payload restricted to
the data-dependent fields). -/
inductive OktaCall where
  | getUser (key : String)
  | updateUser (id : String) (u : OktaUser)
  | createUser (profile : OktaUserProfile)
  | listGroups (query : String)
  | updateGroup (id : String) (g : OktaGroup)
  | createGroup (profile : OktaGroupProfile)
  | deleteGroup (id : String)
deriving DecidableEq, Repr

/-- `user().get` keyed by id or url-encoded login: 404 when absent. -/
def oktaExecGetUser (key : String) (s : OktaState) :
    Except String (OktaUser × OktaState) :=
  match s.users.find? (fun u => u.id == key ||
      (match u.profile with
       | some p => replaceChar p.login '@' "%40" == key
       | none => false)) with
  | some u => Except.ok (u, s)
  | none => Except.error "404 Not Found"

/-- `user().update` keyed by id: replace the record; 404 when absent. -/
def oktaExecUpdateUser (id : String) (u : OktaUser) (s : OktaState) :
    Except String (Unit × OktaState) :=
  match s.users.find? (fun x => x.id == id) with
  | none => Except.error "404 Not Found"
  | some _ =>
    let users2 := s.users.map (fun x => if x.id == id then u else x)
    Except.ok ((), { s with users := users2 })

/-- `user().create`: append the record with a server-assigned id and return
the created user. -/
def oktaExecCreateUser (profile : OktaUserProfile) (s : OktaState) :
    Except String (OktaUser × OktaState) :=
  let created : OktaUser := { id := "okta-id-" ++ profile.login, profile := some profile }
  Except.ok (created, { s with users := s.users ++ [created] })

/-- `group().list_all`: the roster the remote returns for the query (the
scanning code filters by exact profile name itself). -/
def oktaExecListGroups (s : OktaState) : Except String (List OktaGroup × OktaState) :=
  Except.ok (s.groups, s)

/-- `group().update` keyed by id: replace the record; 404 when absent. -/
def oktaExecUpdateGroup (id : String) (g : OktaGroup) (s : OktaState) :
    Except String (Unit × OktaState) :=
  match s.groups.find? (fun x => x.id == id) with
  | none => Except.error "404 Not Found"
  | some _ =>
    let groups2 := s.groups.map (fun x => if x.id == id then g else x)
    Except.ok ((), { s with groups := groups2 })

/-- `group().create`: append the record with a server-assigned id and return
the created group. -/
def oktaExecCreateGroup (profile : OktaGroupProfile) (s : OktaState) :
    Except String (OktaGroup × OktaState) :=
  let created : OktaGroup := { id := "okta-gid-" ++ profile.name, profile := some profile }
  Except.ok (created, { s with groups := s.groups ++ [created] })

/-- `group().delete` keyed by id: 404 when absent. -/
def oktaExecDeleteGroup (id : String) (s : OktaState) :
    Except String (Unit × OktaState) :=
  match s.groups.find? (fun x => x.id == id) with
  | none => Except.error "404 Not Found"
  | some _ =>
    Except.ok ((), { s with groups := s.groups.filter (fun x => x.id != id) })

namespace Okta

/-- The Okta user profile the source builds from the canonical user, the
Directory-resolved manager, and the company name. -/
def profileOf (db : Database) (company : Company) (user : User) : OktaUserProfile :=
  { city := user.home_address_city
    cost_center := ""
    country_code := user.home_address_country_code
    department := user.department
    display_name := user.full_name
    division := ""
    email := user.email
    employee_number := ""
    first_name := user.first_name
    honorific_prefix := ""
    honorific_suffix := ""
    last_name := user.last_name
    locale := ""
    login := user.email
    manager := (user.manager db).email
    manager_id := ""
    middle_name := ""
    mobile_phone := user.recovery_phone
    nick_name := ""
    organization := company.name
    postal_address := user.home_address_formatted
    preferred_language := ""
    primary_phone := user.recovery_phone
    profile_url := ""
    second_email := user.recovery_email
    state := user.home_address_state
    street_address := rustTrim (user.home_address_street_1 ++ "\n" ++ user.home_address_street_2)
    timezone := ""
    title := ""
    user_type := ""
    zip_code := user.home_address_zipcode }

/-- `ensure_user` for the okta client: build the profile; look the user up by
url-encoded login (a non-404 error is fatal with identifying context); on
success update the record and keep its id, on 404 create the user; return the
remote id. -/
def ensure_user (db : Database) (company : Company) (user : User) :
    Eff OktaState OktaCall String := do
  let profile := profileOf db company user
  let resp ← Eff.call (OktaCall.getUser (replaceChar user.email '@' "%40"))
    (oktaExecGetUser (replaceChar user.email '@' "%40"))
  let user_id ← match resp with
    | Except.ok okta_user => do
      let updated := { okta_user with profile := some profile }
      Eff.callQ (OktaCall.updateUser updated.id updated) (oktaExecUpdateUser updated.id updated)
      Eff.pure okta_user.id
    | Except.error e => do
      if !contains404 e then
        Eff.throw ("checking if user `" ++ user.email ++ "` exists in Okta failed: " ++ e)
      Eff.pure ""
  if strIsEmpty user_id then
    let okta_user ← Eff.callQ (OktaCall.createUser profile) (oktaExecCreateUser profile)
    Eff.pure okta_user.id
  else
    Eff.pure user_id

/-- The scan of `ensure_group` over the listed groups: unwrap each group's
profile (panicking when it is `None`); at the first exact name match, update
the description when it diverges and stop; when no group matches, create the
group. -/
def ensureGroupScan (group : Configs.Group) :
    List OktaGroup → Eff OktaState OktaCall Unit
  | [] => do
    let _ ← Eff.callQ (OktaCall.createGroup { name := group.name, description := group.description })
      (oktaExecCreateGroup { name := group.name, description := group.description })
    Eff.pure ()
  | result :: rest =>
    match result.profile with
    | none => Eff.panic "called `Option::unwrap()` on a `None` value"
    | some profile =>
      if profile.name == group.name then
        if profile.description != group.description then do
          let profile2 := { profile with description := group.description }
          let result2 := { result with profile := some profile2 }
          Eff.callQ (OktaCall.updateGroup result.id result2)
            (oktaExecUpdateGroup result.id result2)
          Eff.pure ()
        else
          Eff.pure ()
      else
        ensureGroupScan group rest

/-- `ensure_group` for the okta client: list the groups for the name query
(the listing error propagates unchanged), then scan for an exact name match,
updating, creating, or panicking as `ensureGroupScan` describes. -/
def ensure_group (_db : Database) (_company : Company) (group : Configs.Group) :
    Eff OktaState OktaCall Unit := do
  let results ← Eff.callQ (OktaCall.listGroups group.name) oktaExecListGroups
  ensureGroupScan group results

/-- `check_user_is_member_of_group` for the okta client: an unconditional
no-op returning false. -/
def check_user_is_member_of_group (_company : Company) (_user : User) (_group : String) :
    Eff OktaState OktaCall Bool :=
  Eff.pure false

/-- `add_user_to_group` for the okta client: an unconditional no-op. -/
def add_user_to_group (_company : Company) (_user : User) (_group : String) :
    Eff OktaState OktaCall Unit :=
  Eff.pure ()

/-- `remove_user_from_group` for the okta client: an unconditional no-op. -/
def remove_user_from_group (_company : Company) (_user : User) (_group : String) :
    Eff OktaState OktaCall Unit :=
  Eff.pure ()

/-- `delete_user` for the okta client: an unconditional no-op. -/
def delete_user (_company : Company) (_user : User) : Eff OktaState OktaCall Unit :=
  Eff.pure ()

/-- The scan of `delete_group` over the listed groups: unwrap each group's
profile (panicking when it is `None`); delete the first exact name match by
id; a group not found after the scan is success. -/
def deleteGroupScan (group : Configs.Group) :
    List OktaGroup → Eff OktaState OktaCall Unit
  | [] => Eff.pure ()
  | result :: rest =>
    match result.profile with
    | none => Eff.panic "called `Option::unwrap()` on a `None` value"
    | some profile =>
      if profile.name == group.name then do
        Eff.callQ (OktaCall.deleteGroup result.id) (oktaExecDeleteGroup result.id)
        Eff.pure ()
      else
        deleteGroupScan group rest

/-- `delete_group` for the okta client: list the groups for the name query,
then scan for an exact name match and delete it by id. -/
def delete_group (_company : Company) (group : Configs.Group) :
    Eff OktaState OktaCall Unit := do
  let results ← Eff.callQ (OktaCall.listGroups group.name) oktaExecListGroups
  deleteGroupScan group results

end Okta

/-! ## Spend-management provider (ramp)

Remote-state model: the departments and the invites issued so far. -/
/-- A Ramp department. -/
structure RampDept where
  id : String
  name : String
deriving DecidableEq, Repr

/-- The invite payload (`ramp_api::types::PostUsersDeferredRequest`). -/
structure RampInviteRequest where
  email : String
  first_name : String
  last_name : String
  phone : String
  role : String
  direct_manager_id : String
  department_id : String
  location_id : String
deriving DecidableEq, Repr

/-- Remote state of the Ramp account: the department roster and every invite
the remote has received. -/
structure RampState where
  departments : List RampDept
  invites : List RampInviteRequest
deriving DecidableEq, Repr

/-- The outbound Ramp calls issued by `ensure_user`. -/
inductive RampCall where
  | getDepartments
  | postUsersDeferred (req : RampInviteRequest)
deriving DecidableEq, Repr

/-- `departments().get_all`. -/
def rampExecGetDepartments (s : RampState) :
    Except String (List RampDept × RampState) :=
  Except.ok (s.departments, s)

/-- `users().post_deferred`: record the invite and return the new user id. -/
def rampExecPostUsersDeferred (req : RampInviteRequest) (s : RampState) :
    Except String (String × RampState) :=
  Except.ok ("ramp-id-" ++ toString s.invites.length,
    { s with invites := s.invites ++ [req] })

/-- The department-selection loop of the source: the id of the first
department whose name equals the user's department, the empty string when
none matches. -/
def rampFindDeptId : List RampDept → String → String
  | [], _ => ""
  | d :: rest, name => if d.name == name then d.id else rampFindDeptId rest name

namespace Ramp

/-- `ensure_user` for the ramp client: fetch all departments, build the invite
(business-user role, Directory-resolved manager, first matching department),
and unconditionally post it; return the id of the invited user.  Note there is
no lookup of an existing user and no update branch: every invocation posts a
new invite. -/
def ensure_user (db : Database) (_company : Company) (user : User) :
    Eff RampState RampCall String := do
  let departments ← Eff.callQ RampCall.getDepartments rampExecGetDepartments
  let ramp_user : RampInviteRequest :=
    { email := user.email
      first_name := user.first_name
      last_name := user.last_name
      phone := user.recovery_phone
      role := "BusinessUser"
      direct_manager_id := (user.manager db).ramp_id
      department_id := rampFindDeptId departments user.department
      location_id := "" }
  let rid ← Eff.callQ (RampCall.postUsersDeferred ramp_user) (rampExecPostUsersDeferred ramp_user)
  Eff.pure rid

/-- `ensure_group` for the ramp client: Ramp has no groups, a no-op. -/
def ensure_group (_db : Database) (_company : Company) (_group : Configs.Group) :
    Eff RampState RampCall Unit :=
  Eff.pure ()

/-- `check_user_is_member_of_group` for the ramp client: a no-op returning
false. -/
def check_user_is_member_of_group (_company : Company) (_user : User) (_group : String) :
    Eff RampState RampCall Bool :=
  Eff.pure false

/-- `add_user_to_group` for the ramp client: a no-op. -/
def add_user_to_group (_company : Company) (_user : User) (_group : String) :
    Eff RampState RampCall Unit :=
  Eff.pure ()

/-- `remove_user_from_group` for the ramp client: a no-op. -/
def remove_user_from_group (_company : Company) (_user : User) (_group : String) :
    Eff RampState RampCall Unit :=
  Eff.pure ()

/-- `delete_user` for the ramp client: a no-op (suspension is left as a TODO
in the source). -/
def delete_user (_company : Company) (_user : User) : Eff RampState RampCall Unit :=
  Eff.pure ()

/-- `delete_group` for the ramp client: a no-op. -/
def delete_group (_company : Company) (_group : Configs.Group) :
    Eff RampState RampCall Unit :=
  Eff.pure ()

end Ramp

/-! ## Call classifiers and fixtures -/
/-- GitHub calls that mutate remote state (everything but the lookups and the
listing). -/
def GHCall.isMutation : GHCall → Bool
  | GHCall.getOrgMembership _ _ => false
  | GHCall.getTeamMembership _ _ _ => false
  | GHCall.listTeams _ => false
  | GHCall.getTeamByName _ _ => false
  | _ => true

/-- The org-membership write (the "create" call of the GitHub `ensure_user`). -/
def GHCall.isSetOrgMembership : GHCall → Bool
  | GHCall.setOrgMembership _ _ _ => true
  | _ => false

/-- The team-update call of the GitHub `ensure_group`. -/
def GHCall.isUpdateTeam : GHCall → Bool
  | GHCall.updateTeam _ _ _ _ _ => true
  | _ => false

/-- The team-create call of the GitHub `ensure_group`. -/
def GHCall.isCreateTeam : GHCall → Bool
  | GHCall.createTeam _ _ _ _ _ => true
  | _ => false

/-- The user-insert (create) call of the gsuite `ensure_user`. -/
def GSCall.isInsertUser : GSCall → Bool
  | GSCall.insertUser _ => true
  | _ => false

/-- The new-account notification email of the gsuite `ensure_user`. -/
def GSCall.isNewUserEmail : GSCall → Bool
  | GSCall.sendNewUserEmail _ _ => true
  | _ => false

/-- The group-insert (create) call of the gsuite `ensure_group`. -/
def GSCall.isInsertGroup : GSCall → Bool
  | GSCall.insertGroup _ => true
  | _ => false

/-- The group-update call of the gsuite `ensure_group`. -/
def GSCall.isUpdateGroup : GSCall → Bool
  | GSCall.updateGroup _ _ => true
  | _ => false

/-- The user-create call of the okta `ensure_user`. -/
def OktaCall.isCreateUser : OktaCall → Bool
  | OktaCall.createUser _ => true
  | _ => false

/-- The invite (create) call of the ramp `ensure_user`. -/
def RampCall.isInvite : RampCall → Bool
  | RampCall.postUsersDeferred _ => true
  | _ => false

/-- A Directory resolving every manager to the empty record. -/
def db0 : Database :=
  { managerOf := fun _ => { ramp_id := "", email := "" } }

/-- The account-scoping context used by the concrete scenarios. -/
def company0 : Company :=
  { name := "Oxide"
    github_org := "oxide"
    gsuite_domain := "oxide.computer"
    gsuite_account_id := "C001" }

/-- A canonical user with every field empty. -/
def baseUser : User :=
  { email := ""
    first_name := ""
    last_name := ""
    recovery_email := ""
    recovery_phone := ""
    department := ""
    github := ""
    groups := []
    is_group_admin := false
    aliases := []
    home_address_street_1 := ""
    home_address_street_2 := ""
    home_address_city := ""
    home_address_state := ""
    home_address_zipcode := ""
    home_address_country_code := ""
    home_address_formatted := "" }

/-- The spec's membership-convergence scenario user: canonical groups {eng}. -/
def c1User : User :=
  { baseUser with github := "octocat", groups := ["eng"] }

def c1TeamEng : GHTeam :=
  { slug := "eng"
    description := "Engineering"
    parent_team_id := 0
    members := [("octocat", TeamRole.member)]
    repo_names := [] }

def c1TeamOps : GHTeam :=
  { slug := "ops"
    description := "Operations"
    parent_team_id := 0
    members := [("octocat", TeamRole.member)]
    repo_names := [] }

/-- The scenario's initial remote state: the user is an org member with the
correct role and a member of both eng and ops. -/
def c1State : GHState :=
  { org_members := [("octocat", OrgRole.member)], teams := [c1TeamEng, c1TeamOps] }

/-- The expected final remote state: eng untouched, the user removed from ops. -/
def c1FinalState : GHState :=
  { org_members := [("octocat", OrgRole.member)],
    teams := [c1TeamEng, { c1TeamOps with members := [] }] }

/-- The canonical group of the create scenarios: name design, description
"Design team", one repository. -/
def designGroup : Configs.Group :=
  { name := "design", description := "Design team", aliases := [], repos := ["site"] }

/-- A GitHub remote state with no teams at all (in particular none named
design). -/
def ghEmptyState : GHState := { org_members := [], teams := [] }

/-- A GSuite remote state with no users and no groups. -/
def gsEmptyState : GSState := { users := [], groups := [] }

/-- An Okta remote state with no users and no groups. -/
def oktaEmptyState : OktaState := { users := [], groups := [] }

/-- A Ramp remote state with no departments and no invites. -/
def rampEmptyState : RampState := { departments := [], invites := [] }

/-- A GitHub remote state already holding a team named design (with a parent
team id to make the update payload observable). -/
def ghDesignState : GHState :=
  { org_members := []
    teams := [{ slug := "design"
                description := "Old description"
                parent_team_id := 7
                members := []
                repo_names := [] }] }

/-- A GSuite remote state already holding the group design@oxide.computer. -/
def gsDesignState : GSState :=
  { users := []
    groups := [{ email := "design@oxide.computer"
                 name := "design"
                 description := "Old description"
                 aliases := []
                 members := [] }] }

/-- The role of a member of the GSuite group at `addr`, when both exist. -/
def GSState.memberRole (s : GSState) (addr email : String) : Option String :=
  match s.findGroup addr with
  | none => none
  | some g => g.members.lookup email

/-- A canonical group admin with a github handle and an email address. -/
def adminUser : User :=
  { baseUser with email := "amy@oxide.computer", github := "amygh", is_group_admin := true }

/-- A GSuite remote state where the admin already holds the OWNER role in
eng@oxide.computer. -/
def gsOwnerState : GSState :=
  { users := []
    groups := [{ email := "eng@oxide.computer"
                 name := "eng"
                 description := ""
                 aliases := []
                 members := [("amy@oxide.computer", "OWNER")] }] }

/-- The canonical user of the idempotence scenarios. -/
def c4User : User :=
  { baseUser with email := "amy@oxide.computer", first_name := "Amy", last_name := "Doe" }

/-- First ramp `ensure_user` invocation on an empty remote state. -/
def c4RampRun1 : Except Err String × RampState × List RampCall :=
  Ramp.ensure_user db0 company0 c4User noFaults rampEmptyState []

/-- Second ramp `ensure_user` invocation, on the remote state left by the
first, extending the same call trace. -/
def c4RampRun2 : Except Err String × RampState × List RampCall :=
  Ramp.ensure_user db0 company0 c4User noFaults c4RampRun1.2.1 c4RampRun1.2.2

/-- The GitHub user of the idempotence scenario: handle nora, canonical
groups {eng}. -/
def c4ghUser : User :=
  { baseUser with github := "nora", groups := ["eng"] }

/-- The initial GitHub remote state: the eng team exists, the user is neither
an org member nor a team member. -/
def c4ghS0 : GHState :=
  { org_members := []
    teams := [{ slug := "eng"
                description := "Engineering"
                parent_team_id := 0
                members := []
                repo_names := [] }] }

def c4ghRun1 : Except Err String × GHState × List GHCall :=
  Octorust.ensure_user company0 c4ghUser noFaults c4ghS0 []

def c4ghRun2 : Except Err String × GHState × List GHCall :=
  Octorust.ensure_user company0 c4ghUser noFaults c4ghRun1.2.1 []

def c4gsRun1 : Except Err String × GSState × List GSCall :=
  Gsuite.ensure_user db0 company0 c4User noFaults gsEmptyState []

def c4gsRun2 : Except Err String × GSState × List GSCall :=
  Gsuite.ensure_user db0 company0 c4User noFaults c4gsRun1.2.1 []

def c4okRun1 : Except Err String × OktaState × List OktaCall :=
  Okta.ensure_user db0 company0 c4User noFaults oktaEmptyState []

def c4okRun2 : Except Err String × OktaState × List OktaCall :=
  Okta.ensure_user db0 company0 c4User noFaults c4okRun1.2.1 []

/-- Whether an embedded operation's outcome is a panic. -/
def Except.isPanicErr {α : Type} : Except Err α → Bool
  | Except.error e => e.isPanic
  | Except.ok _ => false

/-- An Okta listing containing a group without a profile. -/
def badOktaState : OktaState :=
  { users := [], groups := [{ id := "00g-broken", profile := none }] }

/-- A computation preserves a predicate on the call trace. -/
def PreservesTrace {σ κ α : Type} (P : List κ → Prop) (x : Eff σ κ α) : Prop :=
  ∀ env s tr, P tr → P ((x env s tr).2.2)

/-- No call of the trace is the new-account notification email. -/
def emailFree (tr : List GSCall) : Prop :=
  ∀ c2 ∈ tr, GSCall.isNewUserEmail c2 = false

/-- The GSuite remote state already holding the scenario user. -/
def gsAmyState : GSState :=
  { users := [{ id := "gsuite-id-amy@oxide.computer"
                primary_email := "amy@oxide.computer"
                first_name := "Amy"
                last_name := "Doe"
                recovery_email := ""
                recovery_phone := ""
                password := "generated-password"
                suspended := false
                suspension_reason := ""
                aliases := [] }]
    groups := [] }

theorem Eff.bind_eq {σ κ α β : Type} (x : Eff σ κ α) (f : α → Eff σ κ β) :
    x >>= f = Eff.bind x f := rfl

theorem Eff.pure_eq {σ κ α : Type} (a : α) : (Pure.pure a : Eff σ κ α) = Eff.pure a := rfl

/-- C1: for the org-membership (GitHub) provider, `ensure_user` reconciles team
memberships as claimed: for each canonical group a membership check and, only
when it returns false, an add; then exactly one team listing; then for each
listed team whose slug is outside the canonical set a membership check and,
only when it returns true, a removal.  On the scenario (canonical groups
{eng}, remote membership {eng, ops}) the pass ends with remote membership
exactly {eng}: one removal from ops, the eng team not mutated. -/
theorem c1_github_membership_convergence :
    Octorust.ensure_user company0 c1User noFaults c1State [] =
      (Except.ok "", c1FinalState,
       [GHCall.getOrgMembership "oxide" "octocat",
        GHCall.getTeamMembership "oxide" "eng" "octocat",
        GHCall.listTeams "oxide",
        GHCall.getTeamMembership "oxide" "ops" "octocat",
        GHCall.removeTeamMembership "oxide" "ops" "octocat"])
    ∧ c1State.teamsOf "octocat" = ["eng", "ops"]
    ∧ c1FinalState.teamsOf "octocat" = ["eng"]
    ∧ c1FinalState.findTeam "eng" = c1State.findTeam "eng" :=
  ⟨rfl, rfl, rfl, rfl⟩

/-- C5 counterexample: against an org with no team named design, the single
create-team call of `ensure_group` carries `repo_names = ["site"]` — the
canonical repos list, not zero repos as claimed (`TeamsCreateRequest` is built
with `repo_names: group.repos.clone()`). -/
theorem c5_counterexample :
    (Octorust.ensure_group company0 designGroup noFaults ghEmptyState []).2.2 =
      [GHCall.getTeamByName "oxide" "design",
       GHCall.createTeam "oxide" "design" "Design team" 0 ["site"]]
    ∧ (["site"] : List String) ≠ [] :=
  ⟨rfl, by decide⟩

/-- C5 (amended): against an org-membership provider with no existing team
named design, `ensure_group` issues exactly one create-team call carrying the
canonical name and description — and the canonical repos list `["site"]`
attached — and no update call. -/
theorem c5_create_team_carries_repos :
    Octorust.ensure_group company0 designGroup noFaults ghEmptyState [] =
      (Except.ok (),
       { org_members := [],
         teams := [{ slug := "design"
                     description := "Design team"
                     parent_team_id := 0
                     members := []
                     repo_names := ["site"] }] },
       [GHCall.getTeamByName "oxide" "design",
        GHCall.createTeam "oxide" "design" "Design team" 0 ["site"]])
    ∧ ((Octorust.ensure_group company0 designGroup noFaults ghEmptyState []).2.2.filter
        GHCall.isUpdateTeam) = []
    ∧ ((Octorust.ensure_group company0 designGroup noFaults ghEmptyState []).2.2.filter
        GHCall.isCreateTeam) =
        [GHCall.createTeam "oxide" "design" "Design team" 0 ["site"]] :=
  ⟨rfl, rfl, rfl⟩

/-- C9: for the SSO-directory (okta) provider the membership operations are
unconditional no-ops for every input, environment, state and trace:
`check_user_is_member_of_group` returns false, `add_user_to_group` and
`remove_user_from_group` return success, and none of them issues any outbound
call or changes the remote state. -/
theorem c9_okta_membership_ops_noop (company : Company) (user : User) (group : String)
    (env : Nat → Option String) (s : OktaState) (tr : List OktaCall) :
    Okta.check_user_is_member_of_group company user group env s tr = (Except.ok false, s, tr)
    ∧ Okta.add_user_to_group company user group env s tr = (Except.ok (), s, tr)
    ∧ Okta.remove_user_from_group company user group env s tr = (Except.ok (), s, tr) :=
  ⟨rfl, rfl, rfl⟩

/-- C7: for the org-membership (GitHub) provider, every operation invoked with
a user whose github handle is empty returns success immediately with no
outbound call and no remote mutation: `ensure_user` returns the empty string,
`check_user_is_member_of_group` returns false, and `add_user_to_group`,
`remove_user_from_group` and `delete_user` return unit. -/
theorem c7_github_empty_handle_skips (company : Company) (user : User)
    (h : user.github = "") :
    (∀ env s tr, Octorust.ensure_user company user env s tr = (Except.ok "", s, tr))
    ∧ (∀ g env s tr,
        Octorust.check_user_is_member_of_group company user g env s tr = (Except.ok false, s, tr))
    ∧ (∀ g env s tr,
        Octorust.add_user_to_group company user g env s tr = (Except.ok (), s, tr))
    ∧ (∀ g env s tr,
        Octorust.remove_user_from_group company user g env s tr = (Except.ok (), s, tr))
    ∧ (∀ env s tr, Octorust.delete_user company user env s tr = (Except.ok (), s, tr)) := by
  refine ⟨fun env s tr => ?_, fun g env s tr => ?_, fun g env s tr => ?_,
    fun g env s tr => ?_, fun env s tr => ?_⟩
  all_goals
    simp [Octorust.ensure_user, Octorust.check_user_is_member_of_group,
      Octorust.add_user_to_group, Octorust.remove_user_from_group, Octorust.delete_user,
      h, strIsEmpty, Eff.bind_eq, Eff.pure_eq, Eff.bind, Eff.pure]

/-- C7 witness: the skip behavior at a concrete handle-less user, environment
and state. -/
theorem c7_witness :
    Octorust.ensure_user company0 baseUser noFaults c1State [] = (Except.ok "", c1State, [])
    ∧ Octorust.check_user_is_member_of_group company0 baseUser "eng" noFaults c1State [] =
        (Except.ok false, c1State, [])
    ∧ Octorust.add_user_to_group company0 baseUser "eng" noFaults c1State [] =
        (Except.ok (), c1State, [])
    ∧ Octorust.remove_user_from_group company0 baseUser "eng" noFaults c1State [] =
        (Except.ok (), c1State, [])
    ∧ Octorust.delete_user company0 baseUser noFaults c1State [] = (Except.ok (), c1State, []) := by
  have h := c7_github_empty_handle_skips company0 baseUser (by decide)
  exact ⟨h.1 noFaults c1State [], h.2.1 "eng" noFaults c1State [],
    h.2.2.1 "eng" noFaults c1State [], h.2.2.2.1 "eng" noFaults c1State [],
    h.2.2.2.2 noFaults c1State []⟩

/-- C2 counterexample: for the SSO-directory (okta) provider, when the group
listing that precedes the create-vs-update decision of `ensure_group` fails
with a non-NotFound error, the error is returned unchanged — it carries no
identifying context (neither the canonical group name nor any provider or
operation text), contradicting the claim that every provider wraps such
errors with identifying context. -/
theorem c2_counterexample :
    Okta.ensure_group db0 company0 designGroup (faultAt 0 "connection reset by peer")
        oktaEmptyState [] =
      (Except.error (Err.err "connection reset by peer"), oktaEmptyState,
       [OktaCall.listGroups "design"])
    ∧ contains404 "connection reset by peer" = false
    ∧ strContainsSub "connection reset by peer" "design" = false
    ∧ strContainsSub "connection reset by peer" "Okta" = false :=
  ⟨rfl, by decide, by decide, by decide⟩

/-- C2 (amended): when the lookup preceding the create-vs-update decision
fails with a non-NotFound error, `ensure_user` and `ensure_group` of every
provider return an error and perform no create or update call afterward (the
trace ends at the failed lookup).  The GitHub and GSuite providers and the
okta `ensure_user` wrap the error with identifying context; the okta
`ensure_group` propagates the listing error unchanged, with no added context.
Only a NotFound classification (or, for okta groups, the absence of an exact
name match in the listing) selects the create branch. -/
theorem c2_nonnotfound_lookup_is_fatal (e : String) (he : contains404 e = false)
    (company : Company) (user : User) (group : Configs.Group) (db : Database)
    (hg : user.github ≠ "") :
    (∀ s : GHState,
        Octorust.ensure_user company user (faultAt 0 e) s [] =
          (Except.error (Err.err ("checking if user `" ++ user.github
             ++ "` is a member of the github org `" ++ company.github_org ++ "` failed: " ++ e)),
           s, [GHCall.getOrgMembership company.github_org user.github]))
    ∧ (∀ s : GHState,
        Octorust.ensure_group company group (faultAt 0 e) s [] =
          (Except.error (Err.err ("checking if team `" ++ group.name
             ++ "` exists in github org `" ++ company.github_org ++ "` failed: " ++ e)),
           s, [GHCall.getTeamByName company.github_org group.name]))
    ∧ (∀ s : GSState,
        Gsuite.ensure_user db company user (faultAt 0 e) s [] =
          (Except.error (Err.err ("checking if user `" ++ user.email
             ++ "` exists in GSuite failed: " ++ e)),
           s, [GSCall.getUser user.email]))
    ∧ (∀ s : GSState,
        Gsuite.ensure_group db company group (faultAt 0 e) s [] =
          (Except.error (Err.err ("checking if group `" ++ group.name
             ++ "` exists in GSuite failed: " ++ e)),
           s, [GSCall.getGroup (group.name ++ "@" ++ company.gsuite_domain)]))
    ∧ (∀ s : OktaState,
        Okta.ensure_user db company user (faultAt 0 e) s [] =
          (Except.error (Err.err ("checking if user `" ++ user.email
             ++ "` exists in Okta failed: " ++ e)),
           s, [OktaCall.getUser (replaceChar user.email '@' "%40")]))
    ∧ (∀ s : OktaState,
        Okta.ensure_group db company group (faultAt 0 e) s [] =
          (Except.error (Err.err e), s, [OktaCall.listGroups group.name])) := by
  refine ⟨fun s => ?_, fun s => ?_, fun s => ?_, fun s => ?_, fun s => ?_, fun s => ?_⟩
  all_goals
    simp [Octorust.ensure_user, Octorust.ensure_group, Gsuite.ensure_user, Gsuite.ensure_group,
      Okta.ensure_user, Okta.ensure_group, he, hg, strIsEmpty, faultAt,
      Eff.bind_eq, Eff.pure_eq, Eff.bind, Eff.pure, Eff.call, Eff.callQ, Eff.orFail, Eff.throw]

/-- C2 witness: the fatal-propagation behavior at a concrete non-NotFound
error, user, group and remote states. -/
theorem c2_witness :
    Octorust.ensure_user company0 c1User (faultAt 0 "boom") ghEmptyState [] =
      (Except.error (Err.err ("checking if user `" ++ "octocat"
         ++ "` is a member of the github org `" ++ "oxide" ++ "` failed: " ++ "boom")),
       ghEmptyState, [GHCall.getOrgMembership "oxide" "octocat"])
    ∧ Octorust.ensure_group company0 designGroup (faultAt 0 "boom") ghEmptyState [] =
        (Except.error (Err.err ("checking if team `" ++ "design"
           ++ "` exists in github org `" ++ "oxide" ++ "` failed: " ++ "boom")),
         ghEmptyState, [GHCall.getTeamByName "oxide" "design"])
    ∧ Gsuite.ensure_user db0 company0 c1User (faultAt 0 "boom") gsEmptyState [] =
        (Except.error (Err.err ("checking if user `" ++ "" ++ "` exists in GSuite failed: "
           ++ "boom")),
         gsEmptyState, [GSCall.getUser ""])
    ∧ Gsuite.ensure_group db0 company0 designGroup (faultAt 0 "boom") gsEmptyState [] =
        (Except.error (Err.err ("checking if group `" ++ "design" ++ "` exists in GSuite failed: "
           ++ "boom")),
         gsEmptyState, [GSCall.getGroup ("design" ++ "@" ++ "oxide.computer")])
    ∧ Okta.ensure_user db0 company0 c1User (faultAt 0 "boom") oktaEmptyState [] =
        (Except.error (Err.err ("checking if user `" ++ "" ++ "` exists in Okta failed: "
           ++ "boom")),
         oktaEmptyState, [OktaCall.getUser (replaceChar "" '@' "%40")])
    ∧ Okta.ensure_group db0 company0 designGroup (faultAt 0 "boom") oktaEmptyState [] =
        (Except.error (Err.err "boom"), oktaEmptyState, [OktaCall.listGroups "design"]) := by
  have h := c2_nonnotfound_lookup_is_fatal "boom" (by decide) company0 c1User designGroup db0
    (by decide)
  exact ⟨h.1 ghEmptyState, h.2.1 ghEmptyState, h.2.2.1 gsEmptyState, h.2.2.2.1 gsEmptyState,
    h.2.2.2.2.1 oktaEmptyState, h.2.2.2.2.2 oktaEmptyState⟩

/-- The GitHub 404 message of the remote-state model is classified NotFound by
the string inspection of the source. -/
theorem contains404_notFound : contains404 "404 Not Found" = true := by decide

/-- C3: for the two providers with lookup-by-name (GitHub teams by slug,
GSuite groups by address), when the group lookup of `ensure_group` returns
NotFound the operation issues exactly one create call carrying the canonical
name and description and no update call; when the lookup succeeds it issues an
update call and no create call. -/
theorem c3_notfound_selects_create (company : Company) (group : Configs.Group) (db : Database) :
    (∀ s : GHState, s.findTeam group.name = none →
      (Octorust.ensure_group company group noFaults s []).2.2 =
        [GHCall.getTeamByName company.github_org group.name,
         GHCall.createTeam company.github_org group.name group.description 0 group.repos])
    ∧ (∀ (s : GHState) (t : GHTeam), s.findTeam group.name = some t →
      (Octorust.ensure_group company group noFaults s []).2.2 =
        [GHCall.getTeamByName company.github_org group.name,
         GHCall.updateTeam company.github_org group.name group.name group.description
           t.parent_team_id])
    ∧ (∀ s : GSState, s.findGroup (group.name ++ "@" ++ company.gsuite_domain) = none →
      (Gsuite.ensure_group db company group noFaults s []).2.2 =
        [GSCall.getGroup (group.name ++ "@" ++ company.gsuite_domain),
         GSCall.insertGroup
           { email := group.name ++ "@" ++ company.gsuite_domain
             name := group.name
             description := group.description
             aliases := group.aliases.map (fun a => a ++ "@" ++ company.gsuite_domain)
             members := [] },
         GSCall.syncGroupAliases (group.name ++ "@" ++ company.gsuite_domain),
         GSCall.updateGroupSettings group.name])
    ∧ (∀ (s : GSState) (g0 : GSGroup),
      s.findGroup (group.name ++ "@" ++ company.gsuite_domain) = some g0 →
      (Gsuite.ensure_group db company group noFaults s []).2.2 =
        [GSCall.getGroup (group.name ++ "@" ++ company.gsuite_domain),
         GSCall.updateGroup (group.name ++ "@" ++ company.gsuite_domain)
           { g0 with
             description := group.description
             aliases := group.aliases.map (fun a => a ++ "@" ++ company.gsuite_domain) },
         GSCall.syncGroupAliases g0.email,
         GSCall.updateGroupSettings group.name]) := by
  refine ⟨fun s h => ?_, fun s t h => ?_, fun s h => ?_, fun s g0 h => ?_⟩
  · simp [Octorust.ensure_group, h, ghExecGetTeamByName, ghExecCreateTeam, noFaults,
      contains404_notFound, Eff.bind_eq, Eff.pure_eq, Eff.bind, Eff.pure, Eff.call, Eff.callQ,
      Eff.orFail, Eff.throw]
  · simp [Octorust.ensure_group, h, ghExecGetTeamByName, ghExecUpdateTeam, noFaults,
      Eff.bind_eq, Eff.pure_eq, Eff.bind, Eff.pure, Eff.call, Eff.callQ, Eff.orFail, Eff.throw]
  · have h' : s.groups.find?
        (fun g => g.email == (group.name ++ "@" ++ company.gsuite_domain)) = none := h
    simp [Gsuite.ensure_group, Gsuite.update_group_aliases, Gsuite.update_google_group_settings,
      GSState.findGroup, h', gsExecGetGroup, gsExecInsertGroup, gsExecSyncGroupAliases,
      gsExecUpdateGroupSettings, noFaults, contains404_notFound,
      Eff.bind_eq, Eff.pure_eq, Eff.bind, Eff.pure, Eff.call, Eff.callQ, Eff.orFail, Eff.throw]
  · have h' : s.groups.find?
        (fun g => g.email == (group.name ++ "@" ++ company.gsuite_domain)) = some g0 := h
    simp [Gsuite.ensure_group, Gsuite.update_group_aliases, Gsuite.update_google_group_settings,
      GSState.findGroup, h', gsExecGetGroup, gsExecUpdateGroup, gsExecSyncGroupAliases,
      gsExecUpdateGroupSettings, noFaults,
      Eff.bind_eq, Eff.pure_eq, Eff.bind, Eff.pure, Eff.call, Eff.callQ, Eff.orFail, Eff.throw]

/-- C3 witness: both branches of both providers at concrete states. -/
theorem c3_witness :
    (Octorust.ensure_group company0 designGroup noFaults ghEmptyState []).2.2 =
      [GHCall.getTeamByName "oxide" "design",
       GHCall.createTeam "oxide" "design" "Design team" 0 ["site"]]
    ∧ (Octorust.ensure_group company0 designGroup noFaults ghDesignState []).2.2 =
      [GHCall.getTeamByName "oxide" "design",
       GHCall.updateTeam "oxide" "design" "design" "Design team" 7]
    ∧ (Gsuite.ensure_group db0 company0 designGroup noFaults gsEmptyState []).2.2 =
      [GSCall.getGroup ("design" ++ "@" ++ "oxide.computer"),
       GSCall.insertGroup
         { email := "design" ++ "@" ++ "oxide.computer"
           name := "design"
           description := "Design team"
           aliases := []
           members := [] },
       GSCall.syncGroupAliases ("design" ++ "@" ++ "oxide.computer"),
       GSCall.updateGroupSettings "design"]
    ∧ (Gsuite.ensure_group db0 company0 designGroup noFaults gsDesignState []).2.2 =
      [GSCall.getGroup ("design" ++ "@" ++ "oxide.computer"),
       GSCall.updateGroup ("design" ++ "@" ++ "oxide.computer")
         { email := "design@oxide.computer"
           name := "design"
           description := "Design team"
           aliases := []
           members := [] },
       GSCall.syncGroupAliases "design@oxide.computer",
       GSCall.updateGroupSettings "design"] := by
  have h := c3_notfound_selects_create company0 designGroup db0
  refine ⟨h.1 ghEmptyState rfl, ?_, ?_, ?_⟩
  · have := h.2.1 ghDesignState
      { slug := "design"
        description := "Old description"
        parent_team_id := 7
        members := []
        repo_names := [] } rfl
    simpa using this
  · simpa using h.2.2.1 gsEmptyState rfl
  · have := h.2.2.2 gsDesignState
      { email := "design@oxide.computer"
        name := "design"
        description := "Old description"
        aliases := []
        members := [] } rfl
    simpa using this

/-- C6: `add_user_to_group` carries the provider's elevated role for a user
with `is_group_admin = true` and the standard member role otherwise: the
GitHub team-membership request carries Maintainer/Member, and the GSuite
member record written (by update when the membership check succeeds, by insert
otherwise) carries OWNER/MEMBER. -/
theorem c6_admin_flag_selects_role (company : Company) (user : User) (group : String) :
    (user.github ≠ "" → ∀ env s tr,
      (Octorust.add_user_to_group company user group env s tr).2.2 =
        tr ++ [GHCall.addTeamMembership company.github_org group user.github
          (if user.is_group_admin then TeamRole.maintainer else TeamRole.member)])
    ∧ (∀ s : GSState,
        s.memberRole (group ++ "@" ++ company.gsuite_domain) user.email =
          some (if user.is_group_admin then "OWNER" else "MEMBER") →
        (Gsuite.add_user_to_group company user group noFaults s []).2.2 =
          [GSCall.getMember (group ++ "@" ++ company.gsuite_domain) user.email,
           GSCall.updateMember (group ++ "@" ++ company.gsuite_domain) user.email
             (if user.is_group_admin then "OWNER" else "MEMBER")])
    ∧ (∀ s : GSState,
        s.memberRole (group ++ "@" ++ company.gsuite_domain) user.email ≠
          some (if user.is_group_admin then "OWNER" else "MEMBER") →
        (Gsuite.add_user_to_group company user group noFaults s []).2.2 =
          [GSCall.getMember (group ++ "@" ++ company.gsuite_domain) user.email,
           GSCall.insertMember (group ++ "@" ++ company.gsuite_domain) user.email
             (if user.is_group_admin then "OWNER" else "MEMBER")]) := by
  refine ⟨fun hg env s tr => ?_, fun s h => ?_, fun s h => ?_⟩
  · simp only [Octorust.add_user_to_group, strIsEmpty, Eff.bind_eq, Eff.pure_eq]
    cases henv : env tr.length with
    | some m =>
      simp [hg, henv, Eff.bind, Eff.pure, Eff.call, Eff.callQ, Eff.orFail]
    | none =>
      cases hx : ghExecAddTeamMembership group user.github
          (if user.is_group_admin then TeamRole.maintainer else TeamRole.member) s with
      | error m => simp [hg, henv, hx, Eff.bind, Eff.pure, Eff.call, Eff.callQ, Eff.orFail]
      | ok v => simp [hg, henv, hx, Eff.bind, Eff.pure, Eff.call, Eff.callQ, Eff.orFail]
  · cases hf : s.findGroup (group ++ "@" ++ company.gsuite_domain) with
    | none => simp only [GSState.memberRole, hf] at h; simp at h
    | some g =>
      cases hl : g.members.lookup user.email with
      | none => simp only [GSState.memberRole, hf, hl] at h; simp at h
      | some r =>
        simp only [GSState.memberRole, hf, hl] at h
        have hr : r = (if user.is_group_admin then "OWNER" else "MEMBER") := by
          simpa using h
        simp [Gsuite.add_user_to_group, Gsuite.check_user_is_member_of_group,
          gsExecGetMember, gsExecUpdateMember, hf, hl, hr, noFaults,
          Eff.bind_eq, Eff.pure_eq, Eff.bind, Eff.pure, Eff.call, Eff.callQ, Eff.orFail,
          Eff.throw]
  · cases hf : s.findGroup (group ++ "@" ++ company.gsuite_domain) with
    | none =>
      simp [Gsuite.add_user_to_group, Gsuite.check_user_is_member_of_group,
        gsExecGetMember, gsExecInsertMember, hf, noFaults, contains404_notFound,
        Eff.bind_eq, Eff.pure_eq, Eff.bind, Eff.pure, Eff.call, Eff.callQ, Eff.orFail,
        Eff.throw]
    | some g =>
      cases hl : g.members.lookup user.email with
      | none =>
        simp [Gsuite.add_user_to_group, Gsuite.check_user_is_member_of_group,
          gsExecGetMember, gsExecInsertMember, hf, hl, noFaults, contains404_notFound,
          Eff.bind_eq, Eff.pure_eq, Eff.bind, Eff.pure, Eff.call, Eff.callQ, Eff.orFail,
          Eff.throw]
      | some r =>
        simp only [GSState.memberRole, hf, hl] at h
        have hr : r ≠ (if user.is_group_admin then "OWNER" else "MEMBER") := by
          simpa using h
        simp [Gsuite.add_user_to_group, Gsuite.check_user_is_member_of_group,
          gsExecGetMember, gsExecInsertMember, hf, hl, hr, noFaults,
          Eff.bind_eq, Eff.pure_eq, Eff.bind, Eff.pure, Eff.call, Eff.callQ, Eff.orFail,
          Eff.throw]

/-- C6 witness: the admin is added with Maintainer (GitHub) and OWNER (GSuite,
update and insert branches); the non-admin is added with Member. -/
theorem c6_witness :
    (Octorust.add_user_to_group company0 adminUser "eng" noFaults ghEmptyState []).2.2 =
      [GHCall.addTeamMembership "oxide" "eng" "amygh" TeamRole.maintainer]
    ∧ (Octorust.add_user_to_group company0 c1User "eng" noFaults ghEmptyState []).2.2 =
      [GHCall.addTeamMembership "oxide" "eng" "octocat" TeamRole.member]
    ∧ (Gsuite.add_user_to_group company0 adminUser "eng" noFaults gsOwnerState []).2.2 =
      [GSCall.getMember ("eng" ++ "@" ++ "oxide.computer") "amy@oxide.computer",
       GSCall.updateMember ("eng" ++ "@" ++ "oxide.computer") "amy@oxide.computer" "OWNER"]
    ∧ (Gsuite.add_user_to_group company0 adminUser "eng" noFaults gsEmptyState []).2.2 =
      [GSCall.getMember ("eng" ++ "@" ++ "oxide.computer") "amy@oxide.computer",
       GSCall.insertMember ("eng" ++ "@" ++ "oxide.computer") "amy@oxide.computer" "OWNER"] := by
  have ha := c6_admin_flag_selects_role company0 adminUser "eng"
  have hm := c6_admin_flag_selects_role company0 c1User "eng"
  refine ⟨?_, ?_, ?_, ?_⟩
  · simpa using ha.1 (by decide) noFaults ghEmptyState []
  · simpa using hm.1 (by decide) noFaults ghEmptyState []
  · simpa using ha.2.1 gsOwnerState (by decide)
  · simpa using ha.2.2 gsEmptyState (by decide)

/-- C4 counterexample: the spend-management (ramp) `ensure_user` posts a new
invite on every invocation — two invocations with unchanged canonical data and
no intervening remote change issue two create (invite) calls, not exactly one,
and the second invocation mutates the remote state further. -/
theorem c4_counterexample :
    (c4RampRun2.2.2.filter RampCall.isInvite).length = 2
    ∧ c4RampRun2.2.1 ≠ c4RampRun1.2.1
    ∧ c4RampRun1.1 = Except.ok "ramp-id-0"
    ∧ c4RampRun2.1 = Except.ok "ramp-id-1" := by
  refine ⟨by decide, by decide, rfl, rfl⟩

/-- C4 (amended): for the GitHub, GSuite and Okta providers, invoking
`ensure_user` twice with unchanged canonical data and no intervening remote
change produces no additional remote mutation beyond the first invocation —
the second run leaves the remote state identical, issues no create call
(GitHub: no org-membership write at all; GSuite: no user insert and no
new-account email; Okta: no user create), and exactly one create call is
issued across the two invocations.  The ramp `ensure_user` is the exception:
it posts a new invite on every invocation (two across two runs). -/
theorem c4_second_run_is_update_or_noop :
    (c4ghRun2.2.1 = c4ghRun1.2.1
      ∧ c4ghRun2.2.2.filter GHCall.isMutation = []
      ∧ ((c4ghRun1.2.2 ++ c4ghRun2.2.2).filter GHCall.isSetOrgMembership).length = 1
      ∧ c4ghRun2.1 = Except.ok "")
    ∧ (c4gsRun2.2.1 = c4gsRun1.2.1
      ∧ c4gsRun2.2.2.filter GSCall.isInsertUser = []
      ∧ ((c4gsRun1.2.2 ++ c4gsRun2.2.2).filter GSCall.isInsertUser).length = 1
      ∧ ((c4gsRun1.2.2 ++ c4gsRun2.2.2).filter GSCall.isNewUserEmail).length = 1
      ∧ c4gsRun2.1 = Except.ok "gsuite-id-amy@oxide.computer")
    ∧ (c4okRun2.2.1 = c4okRun1.2.1
      ∧ c4okRun2.2.2.filter OktaCall.isCreateUser = []
      ∧ ((c4okRun1.2.2 ++ c4okRun2.2.2).filter OktaCall.isCreateUser).length = 1
      ∧ c4okRun2.1 = Except.ok "okta-id-amy@oxide.computer")
    ∧ (c4RampRun2.2.2.filter RampCall.isInvite).length = 2 := by
  refine ⟨⟨by decide, by decide, by decide, rfl⟩,
    ⟨by decide, by decide, by decide, by decide, rfl⟩,
    ⟨by decide, by decide, by decide, rfl⟩, by decide⟩

/-- The `ensure_group` scan never panics when every listed group carries a
profile. -/
theorem ensureGroupScan_no_panic (group : Configs.Group) :
    ∀ l : List OktaGroup, (∀ g2 ∈ l, (g2.profile).isSome = true) →
      ∀ env s tr, (Okta.ensureGroupScan group l env s tr).1.isPanicErr = false := by
  intro l
  induction l with
  | nil =>
    intro _ env s tr
    cases henv : env tr.length with
    | some m =>
      simp [Okta.ensureGroupScan, henv, oktaExecCreateGroup, Except.isPanicErr, Err.isPanic,
        Eff.bind_eq, Eff.pure_eq, Eff.bind, Eff.pure, Eff.call, Eff.callQ, Eff.orFail]
    | none =>
      simp [Okta.ensureGroupScan, henv, oktaExecCreateGroup, Except.isPanicErr, Err.isPanic,
        Eff.bind_eq, Eff.pure_eq, Eff.bind, Eff.pure, Eff.call, Eff.callQ, Eff.orFail]
  | cons a t ih =>
    intro hall env s tr
    obtain ⟨p, hp⟩ := Option.isSome_iff_exists.mp (hall a (by simp))
    have ht : ∀ g2 ∈ t, (g2.profile).isSome = true := fun g2 hg2 => hall g2 (by simp [hg2])
    simp only [Okta.ensureGroupScan, hp]
    by_cases hn : (p.name == group.name) = true
    · by_cases hd : (p.description != group.description) = true
      · cases henv : env tr.length with
        | some m =>
          simp [hn, hd, henv, Except.isPanicErr, Err.isPanic,
            Eff.bind_eq, Eff.pure_eq, Eff.bind, Eff.pure, Eff.call, Eff.callQ, Eff.orFail]
        | none =>
          cases hx : oktaExecUpdateGroup a.id
              { a with profile := some { p with description := group.description } } s with
          | error m =>
            simp [hn, hd, henv, hx, Except.isPanicErr, Err.isPanic,
              Eff.bind_eq, Eff.pure_eq, Eff.bind, Eff.pure, Eff.call, Eff.callQ, Eff.orFail]
          | ok v =>
            simp [hn, hd, henv, hx, Except.isPanicErr, Err.isPanic,
              Eff.bind_eq, Eff.pure_eq, Eff.bind, Eff.pure, Eff.call, Eff.callQ, Eff.orFail]
      · simp [hn, hd, Except.isPanicErr, Err.isPanic, Eff.pure]
    · simpa [hn] using ih ht env s tr

/-- The `delete_group` scan never panics when every listed group carries a
profile. -/
theorem deleteGroupScan_no_panic (group : Configs.Group) :
    ∀ l : List OktaGroup, (∀ g2 ∈ l, (g2.profile).isSome = true) →
      ∀ env s tr, (Okta.deleteGroupScan group l env s tr).1.isPanicErr = false := by
  intro l
  induction l with
  | nil => intro _ env s tr; simp [Okta.deleteGroupScan, Eff.pure, Except.isPanicErr]
  | cons a t ih =>
    intro hall env s tr
    obtain ⟨p, hp⟩ := Option.isSome_iff_exists.mp (hall a (by simp))
    have ht : ∀ g2 ∈ t, (g2.profile).isSome = true := fun g2 hg2 => hall g2 (by simp [hg2])
    simp only [Okta.deleteGroupScan, hp]
    by_cases hn : (p.name == group.name) = true
    · cases henv : env tr.length with
      | some m =>
        simp [hn, henv, Except.isPanicErr, Err.isPanic,
          Eff.bind_eq, Eff.pure_eq, Eff.bind, Eff.pure, Eff.call, Eff.callQ, Eff.orFail]
      | none =>
        cases hx : oktaExecDeleteGroup a.id s with
        | error m =>
          simp [hn, henv, hx, Except.isPanicErr, Err.isPanic,
            Eff.bind_eq, Eff.pure_eq, Eff.bind, Eff.pure, Eff.call, Eff.callQ, Eff.orFail]
        | ok v =>
          simp [hn, henv, hx, Except.isPanicErr, Err.isPanic,
            Eff.bind_eq, Eff.pure_eq, Eff.bind, Eff.pure, Eff.call, Eff.callQ, Eff.orFail]
    · simpa [hn] using ih ht env s tr

/-- C10: the okta `ensure_group` and `delete_group` unwrap the profile of
every listed group before comparing names: they are total (value or error,
never a panic) under the precondition that every listed group carries a
profile, and on a listing containing a profile-less group they panic instead
of returning a classified error. -/
theorem c10_okta_scan_unwraps_profile :
    (∀ (db : Database) (company : Company) (group : Configs.Group) (s : OktaState),
       (∀ g2 ∈ s.groups, (g2.profile).isSome = true) →
       ∀ env tr,
         (Okta.ensure_group db company group env s tr).1.isPanicErr = false
         ∧ (Okta.delete_group company group env s tr).1.isPanicErr = false)
    ∧ (Okta.ensure_group db0 company0 designGroup noFaults badOktaState []).1 =
        Except.error (Err.panicked "called `Option::unwrap()` on a `None` value")
    ∧ (Okta.delete_group company0 designGroup noFaults badOktaState []).1 =
        Except.error (Err.panicked "called `Option::unwrap()` on a `None` value") := by
  refine ⟨fun db company group s hall env tr => ⟨?_, ?_⟩, rfl, rfl⟩
  · cases henv : env tr.length with
    | some m =>
      simp [Okta.ensure_group, henv, oktaExecListGroups, Except.isPanicErr, Err.isPanic,
        Eff.bind_eq, Eff.pure_eq, Eff.bind, Eff.pure, Eff.call, Eff.callQ, Eff.orFail]
    | none =>
      have := ensureGroupScan_no_panic group s.groups hall env s (tr ++ [OktaCall.listGroups group.name])
      simpa [Okta.ensure_group, henv, oktaExecListGroups,
        Eff.bind_eq, Eff.pure_eq, Eff.bind, Eff.pure, Eff.call, Eff.callQ, Eff.orFail] using this
  · cases henv : env tr.length with
    | some m =>
      simp [Okta.delete_group, henv, oktaExecListGroups, Except.isPanicErr, Err.isPanic,
        Eff.bind_eq, Eff.pure_eq, Eff.bind, Eff.pure, Eff.call, Eff.callQ, Eff.orFail]
    | none =>
      have := deleteGroupScan_no_panic group s.groups hall env s (tr ++ [OktaCall.listGroups group.name])
      simpa [Okta.delete_group, henv, oktaExecListGroups,
        Eff.bind_eq, Eff.pure_eq, Eff.bind, Eff.pure, Eff.call, Eff.callQ, Eff.orFail] using this

/-- C10 witness: the guarded totality at a concrete state whose every listed
group carries a profile. -/
theorem c10_witness :
    (Okta.ensure_group db0 company0 designGroup noFaults
        { users := [], groups := [{ id := "00g-eng", profile := some { name := "eng", description := "" } }] }
        []).1.isPanicErr = false
    ∧ (Okta.delete_group company0 designGroup noFaults
        { users := [], groups := [{ id := "00g-eng", profile := some { name := "eng", description := "" } }] }
        []).1.isPanicErr = false :=
  c10_okta_scan_unwraps_profile.1 db0 company0 designGroup
    { users := [], groups := [{ id := "00g-eng", profile := some { name := "eng", description := "" } }] }
    (by decide) noFaults []

/-- `Eff.pure` appends no call. -/
theorem pres_pure {σ κ α : Type} (P : List κ → Prop) (a : α) :
    PreservesTrace P (Eff.pure a : Eff σ κ α) :=
  fun _ _ _ h => h

/-- `Eff.throw` appends no call. -/
theorem pres_throw {σ κ α : Type} (P : List κ → Prop) (m : String) :
    PreservesTrace P (Eff.throw m : Eff σ κ α) :=
  fun _ _ _ h => h

/-- `Eff.orFail` appends no call. -/
theorem pres_orFail {σ κ α : Type} (P : List κ → Prop) (r : Except String α) :
    PreservesTrace P (Eff.orFail r : Eff σ κ α) := by
  intro env s tr h
  cases r <;> simpa [Eff.orFail] using h

/-- `Eff.bind` preserves a trace predicate both parts preserve. -/
theorem pres_bind {σ κ α β : Type} (P : List κ → Prop) (x : Eff σ κ α) (f : α → Eff σ κ β)
    (hx : PreservesTrace P x) (hf : ∀ a, PreservesTrace P (f a)) :
    PreservesTrace P (Eff.bind x f) := by
  intro env s tr h
  have h2 := hx env s tr h
  unfold Eff.bind
  rcases hres : x env s tr with ⟨r, s2, tr2⟩
  rw [hres] at h2
  cases r with
  | ok a => exact hf a env s2 tr2 h2
  | error e => exact h2

/-- `pres_bind` stated on the monad's bind. -/
theorem pres_bindB {σ κ α β : Type} (P : List κ → Prop) (x : Eff σ κ α) (f : α → Eff σ κ β)
    (hx : PreservesTrace P x) (hf : ∀ a, PreservesTrace P (f a)) :
    PreservesTrace P (x >>= f) :=
  pres_bind P x f hx hf

/-- `Eff.call` preserves a predicate stable under appending its call. -/
theorem pres_call {σ κ α : Type} (P : List κ → Prop) (c : κ) (exec : σ → Except String (α × σ))
    (hc : ∀ tr, P tr → P (tr ++ [c])) : PreservesTrace P (Eff.call c exec) := by
  intro env s tr h
  unfold Eff.call
  cases env tr.length with
  | some m => exact hc tr h
  | none =>
    cases exec s with
    | error m => exact hc tr h
    | ok v => exact hc tr h

/-- `Eff.callQ` preserves a predicate stable under appending its call. -/
theorem pres_callQ {σ κ α : Type} (P : List κ → Prop) (c : κ) (exec : σ → Except String (α × σ))
    (hc : ∀ tr, P tr → P (tr ++ [c])) : PreservesTrace P (Eff.callQ c exec) :=
  pres_bind P _ _ (pres_call P c exec hc) (fun r => pres_orFail P r)

/-- A conditional preserves what both branches preserve. -/
theorem pres_ite {σ κ α : Type} (P : List κ → Prop) (c : Prop) [Decidable c]
    (x y : Eff σ κ α) (hx : PreservesTrace P x) (hy : PreservesTrace P y) :
    PreservesTrace P (if c then x else y) := by
  by_cases hc : c
  · simpa [hc] using hx
  · simpa [hc] using hy

/-- Appending a non-email call keeps a trace email-free. -/
theorem emailFree_snoc {tr : List GSCall} {c : GSCall} (h : emailFree tr)
    (hc : GSCall.isNewUserEmail c = false) : emailFree (tr ++ [c]) := by
  intro c2 hc2
  rcases List.mem_append.mp hc2 with h1 | h1
  · exact h c2 h1
  · simp at h1; subst h1; exact hc

/-- The gsuite membership check sends no email. -/
theorem pres_gs_check (company : Company) (user : User) (group : String) :
    PreservesTrace emailFree (Gsuite.check_user_is_member_of_group company user group) := by
  unfold Gsuite.check_user_is_member_of_group
  apply pres_bindB
  · exact pres_call _ _ _ (fun _ h => emailFree_snoc h rfl)
  · intro resp
    cases resp with
    | ok m =>
      apply pres_ite <;> exact pres_pure _ _
    | error e =>
      apply pres_ite
      · exact pres_throw _ _
      · exact pres_pure _ _

/-- Reduce an applied bind whose first computation succeeded. -/
theorem Eff.bind_apply_ok {σ κ α β : Type} {x : Eff σ κ α} {f : α → Eff σ κ β}
    {env : Nat → Option String} {s : σ} {tr : List κ} {a : α} {s2 : σ} {tr2 : List κ}
    (hx : x env s tr = (Except.ok a, s2, tr2)) :
    Eff.bind x f env s tr = f a env s2 tr2 := by
  unfold Eff.bind
  rw [hx]

/-- Reduce an applied call answered successfully by the remote model. -/
theorem Eff.call_exec_ok {σ κ α : Type} {c : κ} {exec : σ → Except String (α × σ)}
    {env : Nat → Option String} {s : σ} {tr : List κ} {a : α} {s2 : σ}
    (henv : env tr.length = none) (hexec : exec s = Except.ok (a, s2)) :
    Eff.call c exec env s tr = (Except.ok (Except.ok a), s2, tr ++ [c]) := by
  unfold Eff.call
  rw [henv, hexec]

/-- The gsuite `add_user_to_group` sends no email. -/
theorem pres_gs_add (company : Company) (user : User) (group : String) :
    PreservesTrace emailFree (Gsuite.add_user_to_group company user group) := by
  unfold Gsuite.add_user_to_group
  apply pres_bindB
  · exact pres_gs_check company user group
  · intro b
    apply pres_ite
    · exact pres_callQ _ _ _ (fun _ h => emailFree_snoc h rfl)
    · exact pres_callQ _ _ _ (fun _ h => emailFree_snoc h rfl)

/-- The gsuite `remove_user_from_group` sends no email. -/
theorem pres_gs_remove (company : Company) (user : User) (group : String) :
    PreservesTrace emailFree (Gsuite.remove_user_from_group company user group) :=
  pres_callQ _ _ _ (fun _ h => emailFree_snoc h rfl)

/-- The gsuite group listing sends no email. -/
theorem pres_gs_list (company : Company) :
    PreservesTrace emailFree (Gsuite.list_provider_groups company) :=
  pres_callQ _ _ _ (fun _ h => emailFree_snoc h rfl)

/-- The user alias synchronization sends no email. -/
theorem pres_gs_aliases (gsuite_user : GSUser) (aliases : List String) :
    PreservesTrace emailFree (Gsuite.update_user_aliases gsuite_user aliases) :=
  pres_callQ _ _ _ (fun _ h => emailFree_snoc h rfl)

/-- The add half of the membership reconciliation sends no email. -/
theorem pres_gs_addLoop (company : Company) (user : User) :
    ∀ l, PreservesTrace emailFree (Gsuite.updateUserGroupsAddLoop company user l) := by
  intro l
  induction l with
  | nil => exact pres_pure _ _
  | cons g rest ih =>
    unfold Gsuite.updateUserGroupsAddLoop
    simp only []
    apply pres_bindB
    · exact pres_gs_check company user g
    · intro b
      apply pres_ite
      · apply pres_bindB
        · exact pres_gs_add company user g
        · intro _
          exact ih
      · apply pres_bindB
        · exact pres_pure _ _
        · intro _
          exact ih

/-- The remove half of the membership reconciliation sends no email. -/
theorem pres_gs_removeLoop (company : Company) (user : User) :
    ∀ l, PreservesTrace emailFree (Gsuite.updateUserGroupsRemoveLoop company user l) := by
  intro l
  induction l with
  | nil => exact pres_pure _ _
  | cons g rest ih =>
    unfold Gsuite.updateUserGroupsRemoveLoop
    simp only []
    apply pres_ite
    · exact ih
    · apply pres_bindB
      · exact pres_gs_check company user g.name
      · intro b
        apply pres_ite
        · apply pres_bindB
          · exact pres_gs_remove company user g.name
          · intro _
            exact ih
        · apply pres_bindB
          · exact pres_pure _ _
          · intro _
            exact ih

/-- The whole membership reconciliation sends no email. -/
theorem pres_gs_google_groups (company : Company) (user : User) :
    PreservesTrace emailFree (Gsuite.update_user_google_groups company user) := by
  unfold Gsuite.update_user_google_groups
  apply pres_bindB
  · exact pres_gs_addLoop company user user.groups
  · intro _
    apply pres_bindB
    · exact pres_gs_list company
    · intro groups
      exact pres_gs_removeLoop company user groups

/-- The update branch of the gsuite `ensure_user` (taken when the initial
lookup is answered by the remote and finds the user) sends no new-account
email, whatever faults later calls hit. -/
theorem ensure_user_update_branch_email_free (db : Database) (company : Company) (user : User)
    (env : Nat → Option String) (s : GSState)
    (henv : env 0 = none) (hu : (s.findUser user.email).isSome = true) :
    emailFree ((Gsuite.ensure_user db company user env s []).2.2) := by
  obtain ⟨gu, hgu⟩ := Option.isSome_iff_exists.mp hu
  have hcall : Eff.call (GSCall.getUser user.email) (gsExecGetUser user.email) env s [] =
      (Except.ok (Except.ok gu), s, [] ++ [GSCall.getUser user.email]) :=
    Eff.call_exec_ok henv (by simp [gsExecGetUser, hgu])
  have hbase : emailFree ([] ++ [GSCall.getUser user.email]) := by
    intro c2 hc2
    simp at hc2
    subst hc2
    rfl
  unfold Gsuite.ensure_user
  rw [Eff.bind_eq, Eff.bind_apply_ok hcall]
  refine pres_bindB _ _ _ ?_ ?_ env s _ hbase
  · exact pres_callQ _ _ _ (fun tr2 h => emailFree_snoc h rfl)
  · intro y1
    refine pres_bindB _ _ _ ?_ ?_
    · exact pres_gs_aliases _ _
    · intro y2
      refine pres_bindB _ _ _ ?_ ?_
      · exact pres_gs_google_groups company user
      · intro y3
        exact pres_pure _ _

/-- When the user is absent and the insert call fails, the gsuite
`ensure_user` returns that error and the trace ends at the insert: no email
is sent. -/
theorem ensure_user_insert_faulted (db : Database) (company : Company) (user : User) (s : GSState) (e : String)
    (h : s.findUser user.email = none) :
    Gsuite.ensure_user db company user (faultAt 1 e) s [] =
      (Except.error (Err.err e), s,
       [GSCall.getUser user.email,
        GSCall.insertUser (Gsuite.update_gsuite_user gsDefaultUser user true company)]) := by
  simp [Gsuite.ensure_user, h, gsExecGetUser, gsExecInsertUser, faultAt, contains404_notFound,
    Eff.bind_eq, Eff.pure_eq, Eff.bind, Eff.pure, Eff.call, Eff.callQ, Eff.orFail, Eff.throw]

/-- When the user is absent, the insert succeeds and the email send fails,
the gsuite `ensure_user` returns the email error (not suppressed); the email
call sits directly after the successful insert. -/
theorem ensure_user_email_faulted (db : Database) (company : Company) (user : User) (s : GSState) (e : String)
    (h : s.findUser user.email = none) :
    Gsuite.ensure_user db company user (faultAt 2 e) s [] =
      (Except.error (Err.err e),
       { s with users := s.users ++
           [{ Gsuite.update_gsuite_user gsDefaultUser user true company with
              id := "gsuite-id-" ++ user.email }] },
       [GSCall.getUser user.email,
        GSCall.insertUser (Gsuite.update_gsuite_user gsDefaultUser user true company),
        GSCall.sendNewUserEmail user.email "generated-password"]) := by
  simp [Gsuite.ensure_user, User.send_email_new_gsuite_user, Gsuite.update_gsuite_user,
    h, gsExecGetUser, gsExecInsertUser, gsExecSendEmail, faultAt, contains404_notFound,
    Eff.bind_eq, Eff.pure_eq, Eff.bind, Eff.pure, Eff.call, Eff.callQ, Eff.orFail, Eff.throw]

/-- C8: for the groupware (gsuite) provider, the new-account notification
email is sent during `ensure_user` only on the create branch — the update
branch's trace is email-free — only after the remote user-insert call
succeeded — a failed insert ends the trace before any email — and a failure
of the email send itself is returned as the error of that `ensure_user` call
rather than suppressed. -/
theorem c8_email_only_after_successful_create :
    (∀ (db : Database) (company : Company) (user : User) (env : Nat → Option String)
       (s : GSState), env 0 = none → (s.findUser user.email).isSome = true →
        emailFree ((Gsuite.ensure_user db company user env s []).2.2))
    ∧ (∀ (db : Database) (company : Company) (user : User) (s : GSState) (e : String),
        s.findUser user.email = none →
        Gsuite.ensure_user db company user (faultAt 1 e) s [] =
          (Except.error (Err.err e), s,
           [GSCall.getUser user.email,
            GSCall.insertUser (Gsuite.update_gsuite_user gsDefaultUser user true company)]))
    ∧ (∀ (db : Database) (company : Company) (user : User) (s : GSState) (e : String),
        s.findUser user.email = none →
        Gsuite.ensure_user db company user (faultAt 2 e) s [] =
          (Except.error (Err.err e),
           { s with users := s.users ++
               [{ Gsuite.update_gsuite_user gsDefaultUser user true company with
                  id := "gsuite-id-" ++ user.email }] },
           [GSCall.getUser user.email,
            GSCall.insertUser (Gsuite.update_gsuite_user gsDefaultUser user true company),
            GSCall.sendNewUserEmail user.email "generated-password"])) :=
  ⟨fun db company user env s henv hu =>
      ensure_user_update_branch_email_free db company user env s henv hu,
   fun db company user s e h => ensure_user_insert_faulted db company user s e h,
   fun db company user s e h => ensure_user_email_faulted db company user s e h⟩

/-- C8 witness: the three parts at concrete states, errors and the scenario
user. -/
theorem c8_witness :
    emailFree ((Gsuite.ensure_user db0 company0 c4User noFaults gsAmyState []).2.2)
    ∧ Gsuite.ensure_user db0 company0 c4User (faultAt 1 "insert rejected") gsEmptyState [] =
        (Except.error (Err.err "insert rejected"), gsEmptyState,
         [GSCall.getUser "amy@oxide.computer",
          GSCall.insertUser (Gsuite.update_gsuite_user gsDefaultUser c4User true company0)])
    ∧ Gsuite.ensure_user db0 company0 c4User (faultAt 2 "smtp unreachable") gsEmptyState [] =
        (Except.error (Err.err "smtp unreachable"),
         { gsEmptyState with users := gsEmptyState.users ++
             [{ Gsuite.update_gsuite_user gsDefaultUser c4User true company0 with
                id := "gsuite-id-" ++ "amy@oxide.computer" }] },
         [GSCall.getUser "amy@oxide.computer",
          GSCall.insertUser (Gsuite.update_gsuite_user gsDefaultUser c4User true company0),
          GSCall.sendNewUserEmail "amy@oxide.computer" "generated-password"]) :=
  ⟨c8_email_only_after_successful_create.1 db0 company0 c4User noFaults gsAmyState rfl
     (by decide),
   c8_email_only_after_successful_create.2.1 db0 company0 c4User gsEmptyState "insert rejected"
     (by decide),
   c8_email_only_after_successful_create.2.2 db0 company0 c4User gsEmptyState "smtp unreachable"
     (by decide)⟩
